import Mathlib

/-!
# ProgramCache (SurfaceFlinger RenderEngine): shader key, generator and cache

A shallow embedding of `services/surfaceflinger/RenderEngine/ProgramCache.cpp`.

* `Formatter` is the text builder of the source file.
* `computeKey`, `generateVertexShader`, `generateFragmentShader`,
  `generateProgram` and `useProgram` follow the member functions of the same
  names statement by statement.
* `ProgramCache.h`, `Description.h`, `Texture.h` and `Program.h` are not part
  of the sources at hand.  What the functions need from them (the `Key`
  class, the fields of a description, the program object) is modelled from
  the specification and marked as such; the numeric constants are taken as a
  parameter `Consts`.
-/

namespace ProgramCache

/-! ## Numeric constants -/

/-- Modelled from the spec: the enumerators of `ProgramCache::Key`
(`ProgramCache.h`) and the two GL texture targets (`GLES2/gl2.h`,
`GLES2/gl2ext.h`) read by `computeKey`.  Their numeric values are not in the
sources, so they are a parameter; section 3 of the spec only fixes that each
field is "an enumerated value packed into disjoint bit ranges of one
integer". -/
structure Consts where
  GL_TEXTURE_EXTERNAL_OES : Nat
  GL_TEXTURE_2D : Nat
  BLEND_PREMULT : Nat
  BLEND_NORMAL : Nat
  BLEND_MASK : Nat
  OPACITY_OPAQUE : Nat
  OPACITY_TRANSLUCENT : Nat
  OPACITY_MASK : Nat
  PLANE_ALPHA_LT_ONE : Nat
  PLANE_ALPHA_EQ_ONE : Nat
  PLANE_ALPHA_MASK : Nat
  TEXTURE_OFF : Nat
  TEXTURE_EXT : Nat
  TEXTURE_2D : Nat
  TEXTURE_MASK : Nat
  COLOR_MATRIX_OFF : Nat
  COLOR_MATRIX_ON : Nat
  COLOR_MATRIX_MASK : Nat
  SBS_OFF : Nat
  SBS_ON : Nat
  SBS_MASK : Nat
  DIST_OFF : Nat
  DIST_ON : Nat
  DIST_MASK : Nat
  deriving DecidableEq, Repr

/-- The seven fields of a key: the mask of each with its enumerated values. -/
def Consts.fields (L : Consts) : List (Nat × List Nat) :=
  [ (L.TEXTURE_MASK, [L.TEXTURE_OFF, L.TEXTURE_EXT, L.TEXTURE_2D]),
    (L.PLANE_ALPHA_MASK, [L.PLANE_ALPHA_LT_ONE, L.PLANE_ALPHA_EQ_ONE]),
    (L.BLEND_MASK, [L.BLEND_PREMULT, L.BLEND_NORMAL]),
    (L.OPACITY_MASK, [L.OPACITY_OPAQUE, L.OPACITY_TRANSLUCENT]),
    (L.COLOR_MATRIX_MASK, [L.COLOR_MATRIX_ON, L.COLOR_MATRIX_OFF]),
    (L.SBS_MASK, [L.SBS_ON, L.SBS_OFF]),
    (L.DIST_MASK, [L.DIST_ON, L.DIST_OFF]) ]

/-- Modelled from the spec: what section 3 requires of the constants.  The
masks select pairwise disjoint bit ranges, every enumerated value lies inside
the mask of its field, the values of one field are distinct, and the two GL
texture targets are different enumerants. -/
def Consts.WellFormed (L : Consts) : Prop :=
  L.fields.Pairwise (fun f g => f.1 &&& g.1 = 0) ∧
  (∀ f ∈ L.fields, (∀ v ∈ f.2, v &&& f.1 = v) ∧ f.2.Nodup) ∧
  L.GL_TEXTURE_EXTERNAL_OES ≠ L.GL_TEXTURE_2D

instance (L : Consts) : Decidable L.WellFormed :=
  inferInstanceAs (Decidable (_ ∧ _ ∧ _))

/-- One well-formed choice of the constants, for evaluating the definitions
on concrete inputs: the Khronos values of the two texture targets and one
bit (two for the texture mode) per key field. -/
def sampleConsts : Consts where
  GL_TEXTURE_EXTERNAL_OES := 0x8D65
  GL_TEXTURE_2D := 0x0DE1
  BLEND_PREMULT := 0x01
  BLEND_NORMAL := 0x00
  BLEND_MASK := 0x01
  OPACITY_OPAQUE := 0x02
  OPACITY_TRANSLUCENT := 0x00
  OPACITY_MASK := 0x02
  PLANE_ALPHA_LT_ONE := 0x04
  PLANE_ALPHA_EQ_ONE := 0x00
  PLANE_ALPHA_MASK := 0x04
  TEXTURE_OFF := 0x00
  TEXTURE_EXT := 0x08
  TEXTURE_2D := 0x10
  TEXTURE_MASK := 0x18
  COLOR_MATRIX_OFF := 0x00
  COLOR_MATRIX_ON := 0x20
  COLOR_MATRIX_MASK := 0x20
  SBS_OFF := 0x00
  SBS_ON := 0x40
  SBS_MASK := 0x40
  DIST_OFF := 0x00
  DIST_ON := 0x80
  DIST_MASK := 0x80

/-! ## Key -/

/-- Modelled from the spec: `ProgramCache::Key` (`ProgramCache.h`), "a
fixed-width bitfield": one integer `mKey` holding all fields. -/
structure Key where
  mKey : Nat
  deriving DecidableEq, Repr

/-- Modelled from the spec: the default constructor of `Key`; no bit is set. -/
def Key.new : Key := ⟨0⟩

/-- Modelled from the spec: `Key::set(mask, value)` replaces the bits selected
by `mask` with `value`, `mKey = (mKey & ~mask) | value`.  Clearing the bits of
`mask` is written `mKey ^^^ (mKey &&& mask)`. -/
def Key.set (k : Key) (mask value : Nat) : Key :=
  ⟨(k.mKey ^^^ (k.mKey &&& mask)) ||| value⟩

/-- Modelled from the spec: `Key::getTextureTarget`, the texture-mode field. -/
def Key.getTextureTarget (L : Consts) (k : Key) : Nat := k.mKey &&& L.TEXTURE_MASK

/-- Modelled from the spec: `Key::isTexturing`, "texture_mode ≠ OFF". -/
def Key.isTexturing (L : Consts) (k : Key) : Bool :=
  decide (k.mKey &&& L.TEXTURE_MASK ≠ L.TEXTURE_OFF)

/-- Modelled from the spec: `Key::isPremultiplied`, blend_mode is PREMULTIPLIED. -/
def Key.isPremultiplied (L : Consts) (k : Key) : Bool :=
  decide (k.mKey &&& L.BLEND_MASK = L.BLEND_PREMULT)

/-- Modelled from the spec: `Key::isOpaque`, opacity_mode is OPAQUE. -/
def Key.isOpaque (L : Consts) (k : Key) : Bool :=
  decide (k.mKey &&& L.OPACITY_MASK = L.OPACITY_OPAQUE)

/-- Modelled from the spec: `Key::hasPlaneAlpha`, plane_alpha_mode is LT_ONE. -/
def Key.hasPlaneAlpha (L : Consts) (k : Key) : Bool :=
  decide (k.mKey &&& L.PLANE_ALPHA_MASK = L.PLANE_ALPHA_LT_ONE)

/-- Modelled from the spec: `Key::hasColorMatrix`, color_matrix_mode is ON. -/
def Key.hasColorMatrix (L : Consts) (k : Key) : Bool :=
  decide (k.mKey &&& L.COLOR_MATRIX_MASK = L.COLOR_MATRIX_ON)

/-- Modelled from the spec: `Key::hasSBSEnabled`, stereo_mode is ON. -/
def Key.hasSBSEnabled (L : Consts) (k : Key) : Bool :=
  decide (k.mKey &&& L.SBS_MASK = L.SBS_ON)

/-- Modelled from the spec: the distortion_mode field of a key is ON.  The
source file never reads this field. -/
def Key.hasDistEnabled (L : Consts) (k : Key) : Bool :=
  decide (k.mKey &&& L.DIST_MASK = L.DIST_ON)

/-! ## Description -/

/-- A single-precision value as far as comparisons need it: a finite value
`m * 2 ^ e`, an infinity, or not-a-number. -/
inductive GLfloat where
  | finite (m : Int) (e : Int)
  | inf (negative : Bool)
  | nan
  deriving DecidableEq, Repr

/-- The comparison `x < 1` of the source; false for not-a-number. -/
def GLfloat.ltOne : GLfloat → Bool
  | .finite m e => if 0 ≤ e then decide (m * 2 ^ e.toNat < 1) else decide (m < 2 ^ (-e).toNat)
  | .inf negative => negative
  | .nan => false

/-- Modelled from the spec: the texture object of a description
(`Texture.h`): its target, read through `getTextureTarget`, and what only
reaches the program as uniform values or bindings. -/
structure Texture where
  mTextureName : Nat
  mTextureTarget : Nat
  mTextureMatrix : List GLfloat
  deriving DecidableEq, Repr

/-- Modelled from the spec: `Texture::getTextureTarget`. -/
def Texture.getTextureTarget (t : Texture) : Nat := t.mTextureTarget

/-- Modelled from the spec: the rendering-state description
(`Description.h`).  The first eight fields are the ones `computeKey` reads;
the others are the runtime uniform values of section 6 (flat colour,
projection, colour matrix, distortion coefficients, per-view transforms). -/
structure Description where
  mTextureEnabled : Bool
  mTexture : Texture
  mPlaneAlpha : GLfloat
  mPremultipliedAlpha : Bool
  mOpaque : Bool
  mColorMatrixEnabled : Bool
  mSBSEnabled : Bool
  mDistEnabled : Bool
  mColor : List GLfloat
  mProjectionMatrix : List GLfloat
  mColorMatrix : List GLfloat
  mDistortParam : List GLfloat
  mWin1Matrix : List GLfloat
  mWin2Matrix : List GLfloat
  deriving DecidableEq, Repr

/-! ## computeKey -/

/-- `ProgramCache::computeKey`: the chain of `set` calls of the source. -/
def computeKey (L : Consts) (description : Description) : Key :=
  let needs : Key := Key.new
  needs
  |>.set L.TEXTURE_MASK
      (if !description.mTextureEnabled then L.TEXTURE_OFF
       else if description.mTexture.getTextureTarget = L.GL_TEXTURE_EXTERNAL_OES then L.TEXTURE_EXT
       else if description.mTexture.getTextureTarget = L.GL_TEXTURE_2D then L.TEXTURE_2D
       else L.TEXTURE_OFF)
  |>.set L.PLANE_ALPHA_MASK
      (if description.mPlaneAlpha.ltOne then L.PLANE_ALPHA_LT_ONE else L.PLANE_ALPHA_EQ_ONE)
  |>.set L.BLEND_MASK
      (if description.mPremultipliedAlpha then L.BLEND_PREMULT else L.BLEND_NORMAL)
  |>.set L.OPACITY_MASK
      (if description.mOpaque then L.OPACITY_OPAQUE else L.OPACITY_TRANSLUCENT)
  |>.set L.COLOR_MATRIX_MASK
      (if description.mColorMatrixEnabled then L.COLOR_MATRIX_ON else L.COLOR_MATRIX_OFF)
  |>.set L.SBS_MASK
      (if description.mSBSEnabled then L.SBS_ON else L.SBS_OFF)
  |>.set L.DIST_MASK
      (if description.mDistEnabled then L.DIST_ON else L.DIST_OFF)

/-- The modeled fields of a description, as the specification lists them. -/
inductive Field where
  | textureEnabled
  | textureTarget
  | planeAlphaBelowOne
  | premultipliedAlpha
  | opacity
  | colorMatrixEnabled
  | stereoEnabled
  | distortionEnabled
  deriving DecidableEq, Repr

/-- Whether two descriptions differ in the given modeled field. -/
def Field.differs (f : Field) (a b : Description) : Bool :=
  match f with
  | .textureEnabled => a.mTextureEnabled != b.mTextureEnabled
  | .textureTarget => a.mTexture.getTextureTarget != b.mTexture.getTextureTarget
  | .planeAlphaBelowOne => a.mPlaneAlpha.ltOne != b.mPlaneAlpha.ltOne
  | .premultipliedAlpha => a.mPremultipliedAlpha != b.mPremultipliedAlpha
  | .opacity => a.mOpaque != b.mOpaque
  | .colorMatrixEnabled => a.mColorMatrixEnabled != b.mColorMatrixEnabled
  | .stereoEnabled => a.mSBSEnabled != b.mSBSEnabled
  | .distortionEnabled => a.mDistEnabled != b.mDistEnabled

/-- All modeled fields, in the order of `Field`. -/
def Field.all : List Field :=
  [.textureEnabled, .textureTarget, .planeAlphaBelowOne, .premultipliedAlpha, .opacity,
   .colorMatrixEnabled, .stereoEnabled, .distortionEnabled]

/-- The two descriptions differ in the field `f` and agree on every other
modeled field. -/
def differOnlyIn (f : Field) (a b : Description) : Prop :=
  ∀ g ∈ Field.all, (g.differs a b = true ↔ g = f)

instance (f : Field) (a b : Description) : Decidable (differOnlyIn f a b) :=
  inferInstanceAs (Decidable (∀ g ∈ Field.all, (g.differs a b = true ↔ g = f)))

/-- The two descriptions agree on every modeled field. -/
def agreeOnModeled (a b : Description) : Prop :=
  ∀ g ∈ Field.all, g.differs a b = false

instance (a b : Description) : Decidable (agreeOnModeled a b) :=
  inferInstanceAs (Decidable (∀ g ∈ Field.all, g.differs a b = false))

/-! ## Formatter -/

/-- A value of the C type `int` (32 bits, two's complement): the integer `x`
reduced to the range from -2147483648 to 2147483647.  It is what `++` and
`--` leave in an `int` when the exact result does not fit. -/
def wrapInt (x : Int) : Int := (x + 2147483648) % 4294967296 - 2147483648

/-- The class `Formatter`: the accumulated text `mString` and the indentation
level `mIndent` (a C `int`, so it may become negative, and `indent` and
`dedent` wrap it at the ends of the `int` range). -/
structure Formatter where
  mString : String
  mIndent : Int
  deriving DecidableEq, Repr

/-- The constructor `Formatter()`: empty text, `mIndent(0)`. -/
def Formatter.new : Formatter := { mString := "", mIndent := 0 }

/-- The method `getString`. -/
def Formatter.getString (f : Formatter) : String := f.mString

/-- The loop `for (int i=0 ; i<out.mIndent ; i++) out.mString.append("    ")`,
with the number of remaining iterations as first argument. -/
def Formatter.appendIndent : Nat → String → String
  | 0, s => s
  | n + 1, s => Formatter.appendIndent n (s ++ "    ")

/-- The friend `operator << (Formatter& out, const char* in)`: the indentation
loop (no iteration when `mIndent` is not positive), then `in`, then a
newline. -/
def Formatter.write (out : Formatter) (s : String) : Formatter :=
  { out with mString := (Formatter.appendIndent out.mIndent.toNat out.mString ++ s) ++ "\n" }

/-- The manipulator `indent`: `f.mIndent++` on an `int`. -/
def indent (f : Formatter) : Formatter := { f with mIndent := wrapInt (f.mIndent + 1) }

/-- The manipulator `dedent`: `f.mIndent--` on an `int`. -/
def dedent (f : Formatter) : Formatter := { f with mIndent := wrapInt (f.mIndent - 1) }

/-- The source's `out << "text"` is written `out <<< "text"`. -/
instance : HShiftLeft Formatter String Formatter := ⟨Formatter.write⟩

/-- The friend `operator<<(Formatter& to, FormaterManipFunc func)`: applies the
manipulator; `out << indent` is written `out <<< indent`. -/
instance : HShiftLeft Formatter (Formatter → Formatter) Formatter := ⟨fun out func => func out⟩

/-! ## Shader generator -/

/-- `ProgramCache::generateVertexShader`.  The `ALOGD` logging call is left
out. -/
def generateVertexShader (L : Consts) (needs : Key) : String :=
  let vs : Formatter := Formatter.new
  let vs :=
    if needs.isTexturing L then
      vs <<< "attribute vec4 texCoords;"
         <<< "varying vec2 outTexCoords;"
    else vs
  let vs :=
    if needs.hasSBSEnabled L then
      vs <<< "varying vec3 fragpos1;"
         <<< "varying vec3 fragpos2;"
         <<< "uniform mat3 win1m;"
         <<< "uniform mat3 win2m;"
    else vs
  let vs :=
    vs <<< "attribute vec4 position;"
       <<< "uniform mat4 projection;"
       <<< "uniform mat4 texture;"
       <<< "void main(void) \x7b" <<< indent
       <<< "gl_Position = projection * position;"
  let vs :=
    if needs.isTexturing L then
      vs <<< "outTexCoords = (texture * texCoords).st;"
    else vs
  let vs :=
    if needs.hasSBSEnabled L then
      vs <<< "vec2 x = texCoords.xy;"
         <<< "fragpos1 = (vec3(x,1.0)*win1m+1.0)/2.0;"
         <<< "fragpos2 = (vec3(x,1.0)*win2m+1.0)/2.0;"
    else vs
  let vs := vs <<< dedent <<< "\x7d"
  vs.getString

/-- `ProgramCache::generateFragmentShader`.  The `ALOGD` logging calls are
left out. -/
def generateFragmentShader (L : Consts) (needs : Key) : String :=
  let fs : Formatter := Formatter.new
  let fs :=
    if needs.getTextureTarget L = L.TEXTURE_EXT then
      fs <<< "#extension GL_OES_EGL_image_external : require"
    else fs
  let fs := fs <<< "precision mediump float;"
  let fs :=
    if needs.getTextureTarget L = L.TEXTURE_EXT then
      fs <<< "uniform samplerExternalOES sampler;"
         <<< "varying vec2 outTexCoords;"
    else if needs.getTextureTarget L = L.TEXTURE_2D then
      fs <<< "uniform sampler2D sampler;"
         <<< "varying vec2 outTexCoords;"
    else if needs.getTextureTarget L = L.TEXTURE_OFF then
      fs <<< "uniform vec4 color;"
    else fs
  let fs :=
    if needs.hasPlaneAlpha L then
      fs <<< "uniform float alphaPlane;"
    else fs
  let fs :=
    if needs.hasColorMatrix L then
      fs <<< "uniform mat4 colorMatrix;"
    else fs
  let fs :=
    if needs.hasSBSEnabled L then
      fs <<< "varying vec3 fragpos1;"
         <<< "varying vec3 fragpos2;"
         <<< "uniform vec4 distortParam;"
         <<< "vec2 Distort(vec2 pa) \x7b"
         <<< "   vec2 p = 2.0*pa - 1.0;"
         <<< "   p = clamp(p, vec2(-1.1), vec2(1.1));"
         <<< "   float rSq = p.x*p.x*3.16+p.y*p.y;"
         <<< "   return p * (distortParam.x + distortParam.y*rSq + distortParam.z*rSq*rSq + distortParam.w*rSq*rSq*rSq)/2.0 + 0.5;"
         <<< "\x7d"
    else fs
  let fs := fs <<< "void main(void) \x7b" <<< indent
  let fs :=
    if needs.isTexturing L then
      if needs.hasSBSEnabled L then
        fs <<< "gl_FragColor=vec4(0.0);"
           <<< "vec2 pos = vec2(-1.0);"
           <<< "if(fragpos1.x >= 0.0 && fragpos1.x <= 1.0 && fragpos1.y >= 0.0 && fragpos1.y <= 1.0)"
           <<< "   pos = Distort(fragpos1.xy);"
           <<< "if(fragpos2.x >= 0.0 && fragpos2.x <= 1.0 && fragpos2.y >= 0.0 && fragpos2.y <= 1.0)"
           <<< "   pos = Distort(fragpos2.xy);"
           <<< "if(pos.x >= 0.0 && pos.x <= 1.0 && pos.y >= 0.0 && pos.y <= 1.0)"
           <<< "   gl_FragColor = texture2D(sampler, pos);"
      else
        fs <<< "gl_FragColor = texture2D(sampler, outTexCoords);"
    else
      fs <<< "gl_FragColor = color;"
  let fs :=
    if needs.isOpaque L then
      fs <<< "gl_FragColor.a = 1.0;"
    else fs
  let fs :=
    if needs.hasPlaneAlpha L then
      if needs.isPremultiplied L then
        fs <<< "gl_FragColor *= alphaPlane;"
      else
        fs <<< "gl_FragColor.a *= alphaPlane;"
    else fs
  let fs :=
    if needs.hasColorMatrix L then
      let fs :=
        if !needs.isOpaque L && needs.isPremultiplied L then
          fs <<< "gl_FragColor.rgb = gl_FragColor.rgb/gl_FragColor.a;"
        else fs
      let fs := fs <<< "gl_FragColor.rgb = pow(gl_FragColor.rgb, vec3(2.2));"
      let fs := fs <<< "gl_FragColor     = colorMatrix*gl_FragColor;"
      let fs := fs <<< "gl_FragColor.rgb = pow(gl_FragColor.rgb, vec3(1.0 / 2.2));"
      if !needs.isOpaque L && needs.isPremultiplied L then
        fs <<< "gl_FragColor.rgb = gl_FragColor.rgb*gl_FragColor.a;"
      else fs
    else fs
  let fs := fs <<< dedent <<< "\x7d"
  fs.getString

/-! ## Program cache -/

/-- Modelled from the spec: the compiled-program object (`Program.h`), an
external collaborator.  `id` stands for the identity (address) of the object
created by `new Program(needs, vs, fs)`; the three constructor arguments are
kept, and `mInitialized` is the validity flag reported by `isValid`. -/
structure Program where
  id : Nat
  mNeeds : Key
  mVertexSource : String
  mFragmentSource : String
  mInitialized : Bool
  deriving DecidableEq, Repr

/-- Modelled from the spec: `Program::isValid`. -/
def Program.isValid (p : Program) : Bool := p.mInitialized

/-- What a call of `useProgram` does outside the cache, in order: the two
generator calls, the construction of a program, and the two calls on the
program object. -/
inductive Event where
  | generatedVertexShader (needs : Key)
  | generatedFragmentShader (needs : Key)
  | constructed (program : Program)
  | use (program : Program)
  | setUniforms (program : Program) (description : Description)
  deriving DecidableEq, Repr

/-- Modelled from the spec: the member `mCache`, "a single mapping Key →
Program" (`DefaultKeyedVector<Key, Program*>` in `ProgramCache.h`), as the
list of its entries. -/
structure KeyedVector where
  entries : List (Key × Program)
  deriving DecidableEq, Repr

/-- Entry lookup by key, first match. -/
def KeyedVector.find : List (Key × Program) → Key → Option Program
  | [], _ => none
  | (k, p) :: rest, key => if k = key then some p else KeyedVector.find rest key

/-- Modelled from the spec: `mCache.valueFor(key)`, the stored program, or the
default value `NULL` (here `none`) when the key has no entry. -/
def KeyedVector.valueFor (v : KeyedVector) (key : Key) : Option Program :=
  KeyedVector.find v.entries key

/-- Replace the program of the first entry of `key`, or append a new entry. -/
def KeyedVector.insert : List (Key × Program) → Key → Program → List (Key × Program)
  | [], key, program => [(key, program)]
  | (k, p) :: rest, key, program =>
    if k = key then (key, program) :: rest else (k, p) :: KeyedVector.insert rest key program

/-- Modelled from the spec: `mCache.add(key, program)`, "insert the
Key→Program pair into the mapping". -/
def KeyedVector.add (v : KeyedVector) (key : Key) (program : Program) : KeyedVector :=
  ⟨KeyedVector.insert v.entries key program⟩

/-- The state of the `ProgramCache` singleton and of its surroundings: the
member `mCache`, the number of `Program` objects constructed so far (the
identity of the next one), and the calls made so far, oldest first. -/
structure CacheState where
  mCache : KeyedVector
  constructed : Nat
  trace : List Event
  deriving DecidableEq, Repr

/-- The cache as the constructor `ProgramCache()` leaves it. -/
def CacheState.empty : CacheState := { mCache := ⟨[]⟩, constructed := 0, trace := [] }

/-- `ProgramCache::generateProgram`: both generators, then
`new Program(needs, vs, fs)`.  Whether the new program compiles and links is
decided by the driver, the parameter `links`. -/
def generateProgram (L : Consts) (links : String → String → Bool) (st : CacheState)
    (needs : Key) : Program × CacheState :=
  let vs := generateVertexShader L needs
  let st := { st with trace := st.trace ++ [Event.generatedVertexShader needs] }
  let fs := generateFragmentShader L needs
  let st := { st with trace := st.trace ++ [Event.generatedFragmentShader needs] }
  let program : Program :=
    { id := st.constructed, mNeeds := needs, mVertexSource := vs, mFragmentSource := fs,
      mInitialized := links vs fs }
  let st := { st with constructed := st.constructed + 1,
                      trace := st.trace ++ [Event.constructed program] }
  (program, st)

/-- `ProgramCache::useProgram`.  The result is the state after the call
together with the final value of the local variable `program`.  The two
`systemTime` readings only feed a commented-out log line and are left out. -/
def useProgram (L : Consts) (links : String → String → Bool) (st : CacheState)
    (description : Description) : Program × CacheState :=
  let needs := computeKey L description
  let (program, st) :=
    match st.mCache.valueFor needs with
    | none =>
      let (program, st) := generateProgram L links st needs
      (program, { st with mCache := st.mCache.add needs program })
    | some program => (program, st)
  if program.isValid then
    (program, { st with trace := st.trace ++ [Event.use program,
                                              Event.setUniforms program description] })
  else (program, st)

/-! ## Sample descriptions -/

/-- A description with every switch off: no texturing (the texture object
names the 2D target), plane alpha 1.0, no runtime values. -/
def plainDescription : Description where
  mTextureEnabled := false
  mTexture := { mTextureName := 0, mTextureTarget := 0x0DE1, mTextureMatrix := [] }
  mPlaneAlpha := .finite 1 0
  mPremultipliedAlpha := false
  mOpaque := false
  mColorMatrixEnabled := false
  mSBSEnabled := false
  mDistEnabled := false
  mColor := []
  mProjectionMatrix := []
  mColorMatrix := []
  mDistortParam := []
  mWin1Matrix := []
  mWin2Matrix := []

/-- The plain description with the texture object naming the external-image
target instead; texturing is still disabled. -/
def plainExternalDescription : Description :=
  { plainDescription with
    mTexture := { mTextureName := 0, mTextureTarget := 0x8D65, mTextureMatrix := [] } }

/-- A textured (2D), premultiplied layer at plane alpha 0.5. -/
def layerHalfAlpha : Description :=
  { plainDescription with
    mTextureEnabled := true
    mTexture := { mTextureName := 7, mTextureTarget := 0x0DE1, mTextureMatrix := [.finite 1 0] }
    mPlaneAlpha := .finite 1 (-1)
    mPremultipliedAlpha := true
    mColor := [.finite 1 0, .finite 0 0, .finite 0 0, .finite 1 0] }

/-- The same layer state with other runtime values: another texture name and
matrix, plane alpha 0.25, another flat colour, colour matrix, distortion
coefficients and per-view transforms. -/
def layerQuarterAlpha : Description :=
  { layerHalfAlpha with
    mTexture := { mTextureName := 9, mTextureTarget := 0x0DE1, mTextureMatrix := [.finite 3 0] }
    mPlaneAlpha := .finite 1 (-2)
    mColor := [.finite 0 0, .finite 1 0, .finite 0 0, .finite 1 (-1)]
    mProjectionMatrix := [.finite 2 0]
    mColorMatrix := [.finite 5 (-3)]
    mDistortParam := [.finite 1 0, .finite (-27) (-6), .finite 15 (-6), .finite 0 0]
    mWin1Matrix := [.finite 6 0]
    mWin2Matrix := [.finite (-5) 0] }

/-- A description with stereo enabled and texturing disabled. -/
def stereoUntextured : Description := { plainDescription with mSBSEnabled := true }

/-- An opaque, premultiplied 2D layer with the colour matrix enabled. -/
def opaquePremultColorMatrix : Description :=
  { layerHalfAlpha with mOpaque := true, mColorMatrixEnabled := true }

/-! ## Lines of a shader text -/

/-- The lines of a text: a line ends at each newline character; a last line
without newline counts as well. -/
def splitLines : List Char → List (List Char)
  | [] => []
  | c :: cs =>
    if c = '\n' then [] :: splitLines cs
    else match splitLines cs with
      | [] => [[c]]
      | l :: ls => (c :: l) :: ls

/-- The lines of a text, as strings. -/
def textLines (s : String) : List String := (splitLines s.data).map String.mk

/-- The text made of the given lines, each followed by a newline. -/
def joinLines : List String → String
  | [] => ""
  | l :: ls => (l ++ "\n") ++ joinLines ls

/-! ## The fragment generator over an arbitrary text builder

`generateFragmentShader` only appends lines and moves the indentation level.
To read off the lines it writes, the same statement sequence is given once
more over any builder with these three operations, with the tested conditions
as parameters; `generateFragmentShader_eq` shows that over `Formatter` and
with the conditions of a key it is `generateFragmentShader`. -/

/-- The operations of `Formatter` the generators use. -/
class ShaderWriter (F : Type) where
  write : F → String → F
  indent : F → F
  dedent : F → F

instance : ShaderWriter Formatter := ⟨Formatter.write, indent, dedent⟩

instance (priority := low) (F : Type) [ShaderWriter F] : HShiftLeft F String F :=
  ⟨ShaderWriter.write⟩

instance (priority := low) (F : Type) [ShaderWriter F] : HShiftLeft F (F → F) F :=
  ⟨fun out func => func out⟩

/-- The statement sequence of `generateFragmentShader` over any builder,
starting from `start`, with the conditions it tests as parameters. -/
def fragmentShaderOf {F : Type} [ShaderWriter F] (start : F)
    (isExt is2D isOff : Prop) [Decidable isExt] [Decidable is2D] [Decidable isOff]
    (isTexturing hasPlaneAlpha hasColorMatrix hasSBSEnabled isOpaque isPremultiplied : Bool) :
    F :=
  let fs : F := start
  let fs :=
    if isExt then
      fs <<< "#extension GL_OES_EGL_image_external : require"
    else fs
  let fs := fs <<< "precision mediump float;"
  let fs :=
    if isExt then
      fs <<< "uniform samplerExternalOES sampler;"
         <<< "varying vec2 outTexCoords;"
    else if is2D then
      fs <<< "uniform sampler2D sampler;"
         <<< "varying vec2 outTexCoords;"
    else if isOff then
      fs <<< "uniform vec4 color;"
    else fs
  let fs :=
    if hasPlaneAlpha then
      fs <<< "uniform float alphaPlane;"
    else fs
  let fs :=
    if hasColorMatrix then
      fs <<< "uniform mat4 colorMatrix;"
    else fs
  let fs :=
    if hasSBSEnabled then
      fs <<< "varying vec3 fragpos1;"
         <<< "varying vec3 fragpos2;"
         <<< "uniform vec4 distortParam;"
         <<< "vec2 Distort(vec2 pa) \x7b"
         <<< "   vec2 p = 2.0*pa - 1.0;"
         <<< "   p = clamp(p, vec2(-1.1), vec2(1.1));"
         <<< "   float rSq = p.x*p.x*3.16+p.y*p.y;"
         <<< "   return p * (distortParam.x + distortParam.y*rSq + distortParam.z*rSq*rSq + distortParam.w*rSq*rSq*rSq)/2.0 + 0.5;"
         <<< "\x7d"
    else fs
  let fs := fs <<< "void main(void) \x7b" <<< (ShaderWriter.indent : F → F)
  let fs :=
    if isTexturing then
      if hasSBSEnabled then
        fs <<< "gl_FragColor=vec4(0.0);"
           <<< "vec2 pos = vec2(-1.0);"
           <<< "if(fragpos1.x >= 0.0 && fragpos1.x <= 1.0 && fragpos1.y >= 0.0 && fragpos1.y <= 1.0)"
           <<< "   pos = Distort(fragpos1.xy);"
           <<< "if(fragpos2.x >= 0.0 && fragpos2.x <= 1.0 && fragpos2.y >= 0.0 && fragpos2.y <= 1.0)"
           <<< "   pos = Distort(fragpos2.xy);"
           <<< "if(pos.x >= 0.0 && pos.x <= 1.0 && pos.y >= 0.0 && pos.y <= 1.0)"
           <<< "   gl_FragColor = texture2D(sampler, pos);"
      else
        fs <<< "gl_FragColor = texture2D(sampler, outTexCoords);"
    else
      fs <<< "gl_FragColor = color;"
  let fs :=
    if isOpaque then
      fs <<< "gl_FragColor.a = 1.0;"
    else fs
  let fs :=
    if hasPlaneAlpha then
      if isPremultiplied then
        fs <<< "gl_FragColor *= alphaPlane;"
      else
        fs <<< "gl_FragColor.a *= alphaPlane;"
    else fs
  let fs :=
    if hasColorMatrix then
      let fs :=
        if !isOpaque && isPremultiplied then
          fs <<< "gl_FragColor.rgb = gl_FragColor.rgb/gl_FragColor.a;"
        else fs
      let fs := fs <<< "gl_FragColor.rgb = pow(gl_FragColor.rgb, vec3(2.2));"
      let fs := fs <<< "gl_FragColor     = colorMatrix*gl_FragColor;"
      let fs := fs <<< "gl_FragColor.rgb = pow(gl_FragColor.rgb, vec3(1.0 / 2.2));"
      if !isOpaque && isPremultiplied then
        fs <<< "gl_FragColor.rgb = gl_FragColor.rgb*gl_FragColor.a;"
      else fs
    else fs
  let fs := fs <<< (ShaderWriter.dedent : F → F) <<< "\x7d"
  fs

/-- The text `n` iterations of the indentation loop append. -/
def indentText : Nat → String
  | 0 => ""
  | n + 1 => "    " ++ indentText n

/-- A builder that keeps the lines written so far instead of their
concatenation. -/
structure LineBuffer where
  lines : List String
  mIndent : Int
  deriving DecidableEq, Repr

instance : ShaderWriter LineBuffer where
  write out s := { out with lines := out.lines ++ [indentText out.mIndent.toNat ++ s] }
  indent f := { f with mIndent := wrapInt (f.mIndent + 1) }
  dedent f := { f with mIndent := wrapInt (f.mIndent - 1) }

/-- The formatter holding the text of the buffered lines. -/
def LineBuffer.toFormatter (b : LineBuffer) : Formatter :=
  { mString := joinLines b.lines, mIndent := b.mIndent }

/-- The lines of the fragment shader as a function of the conditions
`generateFragmentShader` tests: texture mode EXTERNAL, TWO_D, OFF, plane
alpha, colour matrix, stereo, opaque, premultiplied (texturing is "not OFF"). -/
def fragmentLines (ext twoD off planeAlpha colorMatrix sbs opq premult : Bool) :
    List String :=
  (fragmentShaderOf (⟨[], 0⟩ : LineBuffer) (ext = true) (twoD = true) (off = true)
    (!off) planeAlpha colorMatrix sbs opq premult).lines

/-- The line that opens the entry point of both shaders. -/
def mainOpening : String := "void main(void) \x7b"

/-- The declaration part of a shader: the lines before the opening of `main`. -/
def shaderDecls (ls : List String) : List String :=
  ls.takeWhile (fun l => l != mainOpening)

/-- The body of a shader: the lines after the opening of `main`. -/
def shaderBody (ls : List String) : List String :=
  (ls.dropWhile (fun l => l != mainOpening)).drop 1

/-- The line starts with the given text. -/
def hasPrefix (p l : String) : Bool := p.data.isPrefixOf l.data

/-- A `uniform` or `varying` declaration line. -/
def isUniformOrVarying (l : String) : Bool := hasPrefix "uniform " l || hasPrefix "varying " l

/-- Some occurrence of the line `a` comes before some occurrence of the line
`b` in `ls`. -/
def isBefore (a b : String) : List String → Bool
  | [] => false
  | x :: xs => (x == a && decide (b ∈ xs)) || isBefore a b xs

/-- The list of characters `p` occurs in `l` as a contiguous run. -/
def containsChars (p : List Char) : List Char → Bool
  | [] => p.isEmpty
  | c :: cs => p.isPrefixOf (c :: cs) || containsChars p cs

/-- The line contains the given text. -/
def mentions (p l : String) : Bool := containsChars p.data l.data

/-- The declaration part of the generated fragment shader. -/
def fragmentDecls (L : Consts) (k : Key) : List String :=
  shaderDecls (textLines (generateFragmentShader L k))

/-- The body of the generated fragment shader. -/
def fragmentBody (L : Consts) (k : Key) : List String :=
  shaderBody (textLines (generateFragmentShader L k))

/-- The statement that forces the output alpha to 1. -/
def alphaForcing : String := "    gl_FragColor.a = 1.0;"

/-- The statements that assign the output colour from the flat colour uniform
or from the texture. -/
def colourAssignments : List String :=
  [ "    gl_FragColor = color;",
    "    gl_FragColor = texture2D(sampler, outTexCoords);",
    "       gl_FragColor = texture2D(sampler, pos);" ]

/-- The un-premultiply statement of the colour-matrix block. -/
def unPremultiply : String := "    gl_FragColor.rgb = gl_FragColor.rgb/gl_FragColor.a;"

/-- The linearization statement of the colour-matrix block. -/
def linearize : String := "    gl_FragColor.rgb = pow(gl_FragColor.rgb, vec3(2.2));"

/-- The multiplication by the colour matrix. -/
def applyColorMatrix : String := "    gl_FragColor     = colorMatrix*gl_FragColor;"

/-- The re-encoding statement of the colour-matrix block. -/
def reEncode : String := "    gl_FragColor.rgb = pow(gl_FragColor.rgb, vec3(1.0 / 2.2));"

/-- The re-premultiply statement of the colour-matrix block. -/
def rePremultiply : String := "    gl_FragColor.rgb = gl_FragColor.rgb*gl_FragColor.a;"

/-- The alpha-scale statements and the statements of the colour-matrix block. -/
def alphaScaleAndColorMatrix : List String :=
  [ "    gl_FragColor *= alphaPlane;", "    gl_FragColor.a *= alphaPlane;",
    unPremultiply, linearize, applyColorMatrix, reEncode, rePremultiply ]

/-! ## Sequences of `useProgram` calls -/

/-- The object `new Program(needs, vs, fs)` that `generateProgram` creates for
the key `needs` when `id` programs were constructed before: its sources are
the two generated texts of that key. -/
def programFor (L : Consts) (links : String → String → Bool) (id : Nat) (needs : Key) :
    Program :=
  { id := id, mNeeds := needs, mVertexSource := generateVertexShader L needs,
    mFragmentSource := generateFragmentShader L needs,
    mInitialized := links (generateVertexShader L needs) (generateFragmentShader L needs) }

/-- The state after calling `useProgram` on each description of the list in
turn. -/
def useProgramAll (L : Consts) (links : String → String → Bool) (st : CacheState)
    (ds : List Description) : CacheState :=
  ds.foldl (fun st d => (useProgram L links st d).2) st

/-- The events of activating a program for a description: `use()` followed by
`setUniforms(description)` when the program is valid, nothing otherwise. -/
def activation (p : Program) (d : Description) : List Event :=
  if p.isValid then [Event.use p, Event.setUniforms p d] else []

/-! ## The vertex generator over an arbitrary text builder, and recorded runs -/

/-- The statement sequence of `generateVertexShader` over any builder,
starting from `start`, with the conditions it tests as parameters. -/
def vertexShaderOf {F : Type} [ShaderWriter F] (start : F) (isTexturing hasSBSEnabled : Bool) :
    F :=
  let vs : F := start
  let vs :=
    if isTexturing then
      vs <<< "attribute vec4 texCoords;"
         <<< "varying vec2 outTexCoords;"
    else vs
  let vs :=
    if hasSBSEnabled then
      vs <<< "varying vec3 fragpos1;"
         <<< "varying vec3 fragpos2;"
         <<< "uniform mat3 win1m;"
         <<< "uniform mat3 win2m;"
    else vs
  let vs :=
    vs <<< "attribute vec4 position;"
       <<< "uniform mat4 projection;"
       <<< "uniform mat4 texture;"
       <<< "void main(void) \x7b" <<< (ShaderWriter.indent : F → F)
       <<< "gl_Position = projection * position;"
  let vs :=
    if isTexturing then
      vs <<< "outTexCoords = (texture * texCoords).st;"
    else vs
  let vs :=
    if hasSBSEnabled then
      vs <<< "vec2 x = texCoords.xy;"
         <<< "fragpos1 = (vec3(x,1.0)*win1m+1.0)/2.0;"
         <<< "fragpos2 = (vec3(x,1.0)*win2m+1.0)/2.0;"
    else vs
  let vs := vs <<< (ShaderWriter.dedent : F → F) <<< "\x7d"
  vs

/-- The lines of the vertex shader as a function of the two conditions
`generateVertexShader` tests: texturing and stereo. -/
def vertexLines (texturing sbs : Bool) : List String :=
  (vertexShaderOf (⟨[], 0⟩ : LineBuffer) texturing sbs).lines

/-- A builder that records every line together with the indentation level at
which it is written, and the level after every operation (starting with the
initial level). -/
structure LayoutBuffer where
  written : List (Int × String)
  mIndent : Int
  levels : List Int
  deriving DecidableEq, Repr

/-- The recording builder as `Formatter()` starts: nothing written, level 0. -/
def LayoutBuffer.start : LayoutBuffer := { written := [], mIndent := 0, levels := [0] }

instance : ShaderWriter LayoutBuffer where
  write out s :=
    { out with written := out.written ++ [(out.mIndent, s)], levels := out.levels ++ [out.mIndent] }
  indent f :=
    { f with mIndent := wrapInt (f.mIndent + 1), levels := f.levels ++ [wrapInt (f.mIndent + 1)] }
  dedent f :=
    { f with mIndent := wrapInt (f.mIndent - 1), levels := f.levels ++ [wrapInt (f.mIndent - 1)] }

/-- The text line a recorded write produces: the indentation of its level,
then the line that was passed. -/
def renderLine (r : Int × String) : String := indentText r.1.toNat ++ r.2

/-- The formatter a recorded run stands for. -/
def LayoutBuffer.toFormatter (b : LayoutBuffer) : Formatter :=
  { mString := joinLines (b.written.map renderLine), mIndent := b.mIndent }

/-- The `Formatter` named `fs` when `generateFragmentShader` returns. -/
def fragmentFormatter (L : Consts) (needs : Key) : Formatter :=
  fragmentShaderOf Formatter.new (needs.getTextureTarget L = L.TEXTURE_EXT)
    (needs.getTextureTarget L = L.TEXTURE_2D) (needs.getTextureTarget L = L.TEXTURE_OFF)
    (needs.isTexturing L) (needs.hasPlaneAlpha L) (needs.hasColorMatrix L)
    (needs.hasSBSEnabled L) (needs.isOpaque L) (needs.isPremultiplied L)

/-- The same run of `generateFragmentShader` with a recording builder. -/
def fragmentRun (L : Consts) (needs : Key) : LayoutBuffer :=
  fragmentShaderOf LayoutBuffer.start (needs.getTextureTarget L = L.TEXTURE_EXT)
    (needs.getTextureTarget L = L.TEXTURE_2D) (needs.getTextureTarget L = L.TEXTURE_OFF)
    (needs.isTexturing L) (needs.hasPlaneAlpha L) (needs.hasColorMatrix L)
    (needs.hasSBSEnabled L) (needs.isOpaque L) (needs.isPremultiplied L)

/-- The `Formatter` named `vs` when `generateVertexShader` returns. -/
def vertexFormatter (L : Consts) (needs : Key) : Formatter :=
  vertexShaderOf Formatter.new (needs.isTexturing L) (needs.hasSBSEnabled L)

/-- The same run of `generateVertexShader` with a recording builder. -/
def vertexRun (L : Consts) (needs : Key) : LayoutBuffer :=
  vertexShaderOf LayoutBuffer.start (needs.isTexturing L) (needs.hasSBSEnabled L)

/-- The recorded run of the fragment generator as a function of the
conditions (texturing is "not OFF"). -/
def fragmentLayout (ext twoD off planeAlpha colorMatrix sbs opq premult : Bool) :
    LayoutBuffer :=
  fragmentShaderOf LayoutBuffer.start (ext = true) (twoD = true) (off = true)
    (!off) planeAlpha colorMatrix sbs opq premult

/-- A declaration line: attribute, varying, uniform, precision or extension. -/
def isDeclaration (l : String) : Bool :=
  hasPrefix "attribute " l || hasPrefix "varying " l || hasPrefix "uniform " l ||
  hasPrefix "precision " l || hasPrefix "#extension " l

/-- The two-phase layout of a recorded run: exactly one line opens `main`;
the lines before it are written at level 0; the lines after it, except the
last, are written at level 1 and are no declaration lines; the last line is
the closing brace at level 0; the level is never negative and ends at 0. -/
def LayoutBuffer.TwoPhase (b : LayoutBuffer) : Prop :=
  (b.written.map Prod.snd).count mainOpening = 1 ∧
  (∀ r ∈ b.written.takeWhile (fun r => r.2 != mainOpening), r.1 = 0) ∧
  (∀ r ∈ ((b.written.dropWhile (fun r => r.2 != mainOpening)).drop 1).dropLast,
    r.1 = 1 ∧ isDeclaration r.2 = false) ∧
  b.written.getLast? = some (0, "\x7d") ∧
  (∀ n ∈ b.levels, 0 ≤ n) ∧
  b.mIndent = 0

instance (b : LayoutBuffer) : Decidable b.TwoPhase :=
  inferInstanceAs (Decidable (_ ∧ _ ∧ _ ∧ _ ∧ _ ∧ _))

/-- A textured 2D layer with stereo enabled. -/
def stereoLayer : Description := { layerHalfAlpha with mSBSEnabled := true }
/-- The extension directive of the fragment shader. -/
def extensionDirective : String := "#extension GL_OES_EGL_image_external : require"

/-- The default float precision declaration of the fragment shader. -/
def precisionDeclaration : String := "precision mediump float;"

/-- The lines of `p`, in this order, follow each other directly somewhere in
`ls`. -/
def consecutiveIn (p : List String) : List String → Bool
  | [] => p.isEmpty
  | x :: xs => p.isPrefixOf (x :: xs) || consecutiveIn p xs

/-- The statements the stereo fragment body starts with. -/
def stereoSampling : List String :=
  [ "    gl_FragColor=vec4(0.0);",
    "    vec2 pos = vec2(-1.0);",
    "    if(fragpos1.x >= 0.0 && fragpos1.x <= 1.0 && fragpos1.y >= 0.0 && fragpos1.y <= 1.0)",
    "       pos = Distort(fragpos1.xy);",
    "    if(fragpos2.x >= 0.0 && fragpos2.x <= 1.0 && fragpos2.y >= 0.0 && fragpos2.y <= 1.0)",
    "       pos = Distort(fragpos2.xy);",
    "    if(pos.x >= 0.0 && pos.x <= 1.0 && pos.y >= 0.0 && pos.y <= 1.0)",
    "       gl_FragColor = texture2D(sampler, pos);" ]

/-- The statement the non-stereo textured fragment body starts with. -/
def directSampling : List String :=
  [ "    gl_FragColor = texture2D(sampler, outTexCoords);" ]

/-- The recorded run keeps the rendered lines of the line buffer. -/
def LayoutBuffer.toLineBuffer (b : LayoutBuffer) : LineBuffer :=
  { lines := b.written.map renderLine, mIndent := b.mIndent }

/-- A formatter at the largest level an `int` holds. -/
def formatterAtIntMax : Formatter := { mString := "", mIndent := 2147483647 }

/-! # Theorems -/

/-! ## Key fields written by `set` -/

theorem Key.set_and_same (k : Key) (m v : Nat) (hv : v &&& m = v) :
    (k.set m v).mKey &&& m = v := by
  apply Nat.eq_of_testBit_eq
  intro i
  have h := congrArg (fun x => Nat.testBit x i) hv
  simp only [Nat.testBit_and] at h
  simp only [Key.set, Nat.testBit_and, Nat.testBit_or, Nat.testBit_xor]
  revert h
  cases k.mKey.testBit i <;> cases m.testBit i <;> cases v.testBit i <;> simp

theorem Key.set_and_other (k : Key) (m v m' : Nat) (hv : v &&& m = v) (hd : m' &&& m = 0) :
    (k.set m v).mKey &&& m' = k.mKey &&& m' := by
  apply Nat.eq_of_testBit_eq
  intro i
  have h := congrArg (fun x => Nat.testBit x i) hv
  have h2 := congrArg (fun x => Nat.testBit x i) hd
  simp only [Nat.testBit_and, Nat.zero_testBit] at h h2
  simp only [Key.set, Nat.testBit_and, Nat.testBit_or, Nat.testBit_xor]
  revert h h2
  cases k.mKey.testBit i <;> cases m.testBit i <;> cases v.testBit i <;>
    cases m'.testBit i <;> simp

theorem ite_and_mask (c : Prop) [Decidable c] (a b m : Nat) (ha : a &&& m = a)
    (hb : b &&& m = b) : (if c then a else b) &&& m = if c then a else b := by
  split_ifs <;> assumption

theorem ite_bool_inj {A B : Nat} (hne : ¬ A = B) (c d : Bool)
    (h : (if c = true then A else B) = (if d = true then A else B)) : c = d := by
  cases c <;> cases d <;> simp at h <;>
    first | rfl | exact absurd h hne | exact absurd h.symm hne

/-- The facts packed in `Consts.WellFormed`, as one conjunction. -/
theorem Consts.WellFormed.facts {L : Consts} (h : L.WellFormed) :
  ((L.TEXTURE_MASK &&& L.PLANE_ALPHA_MASK = 0 ∧
        L.TEXTURE_MASK &&& L.BLEND_MASK = 0 ∧
          L.TEXTURE_MASK &&& L.OPACITY_MASK = 0 ∧
            L.TEXTURE_MASK &&& L.COLOR_MATRIX_MASK = 0 ∧
              L.TEXTURE_MASK &&& L.SBS_MASK = 0 ∧ L.TEXTURE_MASK &&& L.DIST_MASK = 0) ∧
      (L.PLANE_ALPHA_MASK &&& L.BLEND_MASK = 0 ∧
          L.PLANE_ALPHA_MASK &&& L.OPACITY_MASK = 0 ∧
            L.PLANE_ALPHA_MASK &&& L.COLOR_MATRIX_MASK = 0 ∧
              L.PLANE_ALPHA_MASK &&& L.SBS_MASK = 0 ∧ L.PLANE_ALPHA_MASK &&& L.DIST_MASK = 0) ∧
        (L.BLEND_MASK &&& L.OPACITY_MASK = 0 ∧
            L.BLEND_MASK &&& L.COLOR_MATRIX_MASK = 0 ∧
              L.BLEND_MASK &&& L.SBS_MASK = 0 ∧ L.BLEND_MASK &&& L.DIST_MASK = 0) ∧
          (L.OPACITY_MASK &&& L.COLOR_MATRIX_MASK = 0 ∧
              L.OPACITY_MASK &&& L.SBS_MASK = 0 ∧ L.OPACITY_MASK &&& L.DIST_MASK = 0) ∧
            (L.COLOR_MATRIX_MASK &&& L.SBS_MASK = 0 ∧ L.COLOR_MATRIX_MASK &&& L.DIST_MASK = 0) ∧
              L.SBS_MASK &&& L.DIST_MASK = 0) ∧
    (((L.TEXTURE_OFF &&& L.TEXTURE_MASK = L.TEXTURE_OFF ∧
            L.TEXTURE_EXT &&& L.TEXTURE_MASK = L.TEXTURE_EXT ∧ L.TEXTURE_2D &&& L.TEXTURE_MASK = L.TEXTURE_2D) ∧
          (¬L.TEXTURE_OFF = L.TEXTURE_EXT ∧ ¬L.TEXTURE_OFF = L.TEXTURE_2D) ∧ ¬L.TEXTURE_EXT = L.TEXTURE_2D) ∧
        ((L.PLANE_ALPHA_LT_ONE &&& L.PLANE_ALPHA_MASK = L.PLANE_ALPHA_LT_ONE ∧
              L.PLANE_ALPHA_EQ_ONE &&& L.PLANE_ALPHA_MASK = L.PLANE_ALPHA_EQ_ONE) ∧
            ¬L.PLANE_ALPHA_LT_ONE = L.PLANE_ALPHA_EQ_ONE) ∧
          ((L.BLEND_PREMULT &&& L.BLEND_MASK = L.BLEND_PREMULT ∧ L.BLEND_NORMAL &&& L.BLEND_MASK = L.BLEND_NORMAL) ∧
              ¬L.BLEND_PREMULT = L.BLEND_NORMAL) ∧
            ((L.OPACITY_OPAQUE &&& L.OPACITY_MASK = L.OPACITY_OPAQUE ∧
                  L.OPACITY_TRANSLUCENT &&& L.OPACITY_MASK = L.OPACITY_TRANSLUCENT) ∧
                ¬L.OPACITY_OPAQUE = L.OPACITY_TRANSLUCENT) ∧
              ((L.COLOR_MATRIX_ON &&& L.COLOR_MATRIX_MASK = L.COLOR_MATRIX_ON ∧
                    L.COLOR_MATRIX_OFF &&& L.COLOR_MATRIX_MASK = L.COLOR_MATRIX_OFF) ∧
                  ¬L.COLOR_MATRIX_ON = L.COLOR_MATRIX_OFF) ∧
                ((L.SBS_ON &&& L.SBS_MASK = L.SBS_ON ∧ L.SBS_OFF &&& L.SBS_MASK = L.SBS_OFF) ∧ ¬L.SBS_ON = L.SBS_OFF) ∧
                  (L.DIST_ON &&& L.DIST_MASK = L.DIST_ON ∧ L.DIST_OFF &&& L.DIST_MASK = L.DIST_OFF) ∧
                    ¬L.DIST_ON = L.DIST_OFF) ∧
      L.GL_TEXTURE_EXTERNAL_OES ≠ L.GL_TEXTURE_2D := by
  simpa only [Consts.WellFormed, Consts.fields, List.pairwise_cons, List.mem_cons, List.mem_singleton, forall_eq_or_imp, forall_eq, List.not_mem_nil, List.nodup_cons, List.Pairwise.nil, List.nodup_nil, false_implies, implies_true, and_true, not_or, not_false_eq_true, IsEmpty.forall_iff] using h

theorem computeKey_texture (L : Consts) (h : L.WellFormed) (d : Description) :
    (computeKey L d).mKey &&& L.TEXTURE_MASK =
      (if !d.mTextureEnabled then L.TEXTURE_OFF
       else if d.mTexture.getTextureTarget = L.GL_TEXTURE_EXTERNAL_OES then L.TEXTURE_EXT
       else if d.mTexture.getTextureTarget = L.GL_TEXTURE_2D then L.TEXTURE_2D
       else L.TEXTURE_OFF) := by
  have hf := h.facts
  simp only [computeKey, Key.set_and_other, ite_and_mask, hf]
  apply Key.set_and_same
  split_ifs <;> simp only [hf]

theorem computeKey_planeAlpha (L : Consts) (h : L.WellFormed) (d : Description) :
    (computeKey L d).mKey &&& L.PLANE_ALPHA_MASK =
      (if d.mPlaneAlpha.ltOne then L.PLANE_ALPHA_LT_ONE else L.PLANE_ALPHA_EQ_ONE) := by
  have hf := h.facts
  simp only [computeKey, Key.set_and_other, Key.set_and_same, ite_and_mask, hf]

theorem computeKey_blend (L : Consts) (h : L.WellFormed) (d : Description) :
    (computeKey L d).mKey &&& L.BLEND_MASK =
      (if d.mPremultipliedAlpha then L.BLEND_PREMULT else L.BLEND_NORMAL) := by
  have hf := h.facts
  simp only [computeKey, Key.set_and_other, Key.set_and_same, ite_and_mask, hf]

theorem computeKey_opacity (L : Consts) (h : L.WellFormed) (d : Description) :
    (computeKey L d).mKey &&& L.OPACITY_MASK =
      (if d.mOpaque then L.OPACITY_OPAQUE else L.OPACITY_TRANSLUCENT) := by
  have hf := h.facts
  simp only [computeKey, Key.set_and_other, Key.set_and_same, ite_and_mask, hf]

theorem computeKey_colorMatrix (L : Consts) (h : L.WellFormed) (d : Description) :
    (computeKey L d).mKey &&& L.COLOR_MATRIX_MASK =
      (if d.mColorMatrixEnabled then L.COLOR_MATRIX_ON else L.COLOR_MATRIX_OFF) := by
  have hf := h.facts
  simp only [computeKey, Key.set_and_other, Key.set_and_same, ite_and_mask, hf]

theorem computeKey_sbs (L : Consts) (h : L.WellFormed) (d : Description) :
    (computeKey L d).mKey &&& L.SBS_MASK = (if d.mSBSEnabled then L.SBS_ON else L.SBS_OFF) := by
  have hf := h.facts
  simp only [computeKey, Key.set_and_other, Key.set_and_same, ite_and_mask, hf]

theorem computeKey_dist (L : Consts) (h : L.WellFormed) (d : Description) :
    (computeKey L d).mKey &&& L.DIST_MASK = (if d.mDistEnabled then L.DIST_ON else L.DIST_OFF) := by
  have hf := h.facts
  simp only [computeKey, Key.set_and_other, Key.set_and_same, ite_and_mask, hf]

/-- Equal keys force equal values of every field written by `computeKey`. -/
theorem computeKey_eq_fields (L : Consts) (hL : L.WellFormed) (a b : Description)
    (heq : computeKey L a = computeKey L b) :
    (computeKey L a).mKey &&& L.TEXTURE_MASK = (computeKey L b).mKey &&& L.TEXTURE_MASK ∧
    a.mPlaneAlpha.ltOne = b.mPlaneAlpha.ltOne ∧
    a.mPremultipliedAlpha = b.mPremultipliedAlpha ∧
    a.mOpaque = b.mOpaque ∧
    a.mColorMatrixEnabled = b.mColorMatrixEnabled ∧
    a.mSBSEnabled = b.mSBSEnabled ∧
    a.mDistEnabled = b.mDistEnabled := by
  have hf := hL.facts
  have h2 := computeKey_planeAlpha L hL a
  have h3 := computeKey_blend L hL a
  have h4 := computeKey_opacity L hL a
  have h5 := computeKey_colorMatrix L hL a
  have h6 := computeKey_sbs L hL a
  have h7 := computeKey_dist L hL a
  rw [heq, computeKey_planeAlpha L hL b] at h2
  rw [heq, computeKey_blend L hL b] at h3
  rw [heq, computeKey_opacity L hL b] at h4
  rw [heq, computeKey_colorMatrix L hL b] at h5
  rw [heq, computeKey_sbs L hL b] at h6
  rw [heq, computeKey_dist L hL b] at h7
  refine ⟨by rw [heq], ?_, ?_, ?_, ?_, ?_, ?_⟩
  · exact (ite_bool_inj hf.2.1.2.1.2 _ _ h2).symm
  · exact (ite_bool_inj hf.2.1.2.2.1.2 _ _ h3).symm
  · exact (ite_bool_inj hf.2.1.2.2.2.1.2 _ _ h4).symm
  · exact (ite_bool_inj hf.2.1.2.2.2.2.1.2 _ _ h5).symm
  · exact (ite_bool_inj hf.2.1.2.2.2.2.2.1.2 _ _ h6).symm
  · exact (ite_bool_inj hf.2.1.2.2.2.2.2.2.2 _ _ h7).symm

/-- C1 (as amended): two descriptions that differ in exactly one modeled field
and agree on the others get different keys, provided that when the field is
"texturing enabled" the common texture target is the external-image or the 2D
target, and when it is "texture target" texturing is enabled and at least one
of the two targets is the external-image or the 2D target. -/
theorem computeKey_ne_of_single_field (L : Consts) (hL : L.WellFormed) (f : Field) (a b : Description)
    (hd : differOnlyIn f a b)
    (hEnabled : f = Field.textureEnabled →
      a.mTexture.getTextureTarget = L.GL_TEXTURE_EXTERNAL_OES ∨
      a.mTexture.getTextureTarget = L.GL_TEXTURE_2D)
    (hTarget : f = Field.textureTarget →
      a.mTextureEnabled = true ∧
      ((a.mTexture.getTextureTarget = L.GL_TEXTURE_EXTERNAL_OES ∨
        a.mTexture.getTextureTarget = L.GL_TEXTURE_2D) ∨
       (b.mTexture.getTextureTarget = L.GL_TEXTURE_EXTERNAL_OES ∨
        b.mTexture.getTextureTarget = L.GL_TEXTURE_2D))) :
    computeKey L a ≠ computeKey L b := by
  intro heq
  obtain ⟨e1, e2, e3, e4, e5, e6, e7⟩ := computeKey_eq_fields L hL a b heq
  rw [computeKey_texture L hL a, computeKey_texture L hL b] at e1
  have hf := hL.facts
  obtain ⟨-, ⟨⟨-, ⟨n1, n2⟩, n3⟩, -⟩, n4⟩ := hf
  simp only [differOnlyIn, Field.all, List.mem_cons, List.mem_singleton, forall_eq_or_imp,
    forall_eq, Field.differs, List.not_mem_nil, IsEmpty.forall_iff, and_true,
    bne_iff_ne, ne_eq] at hd
  obtain ⟨d1, d2, d3, d4, d5, d6, d7, d8⟩ := hd
  have m1 : ¬L.TEXTURE_EXT = L.TEXTURE_OFF := fun h => n1 h.symm
  have m2 : ¬L.TEXTURE_2D = L.TEXTURE_OFF := fun h => n2 h.symm
  have m3 : ¬L.TEXTURE_2D = L.TEXTURE_EXT := fun h => n3 h.symm
  have m4 : ¬L.GL_TEXTURE_2D = L.GL_TEXTURE_EXTERNAL_OES := fun h => n4 h.symm
  cases f
  case textureEnabled =>
    have d2 := not_not.mp (fun h => by simpa using d2.mp h)
    have d1 := d1.mpr rfl
    rw [← d2] at e1
    rcases hEnabled rfl with ht | ht <;>
    cases ha : a.mTextureEnabled <;> cases hb : b.mTextureEnabled <;>
      simp [ha, hb, ht, n1, n2, n3, n4, m1, m2, m3, m4] at e1 d1
  case textureTarget =>
    have d1 := not_not.mp (fun h => by simpa using d1.mp h)
    have d2 := d2.mpr rfl
    obtain ⟨ha, ht⟩ := hTarget rfl
    rw [← d1, ha] at e1
    simp only [Bool.not_true, Bool.false_eq_true, if_false] at e1
    rcases ht with (ht | ht) | (ht | ht) <;> rw [ht] at e1 d2
    · have g1 : ¬ b.mTexture.getTextureTarget = L.GL_TEXTURE_EXTERNAL_OES := fun h => d2 h.symm
      by_cases g2 : b.mTexture.getTextureTarget = L.GL_TEXTURE_2D <;>
        simp [g1, g2, n1, n2, n3, n4, m1, m2, m3, m4] at e1
    · have g1 : ¬ b.mTexture.getTextureTarget = L.GL_TEXTURE_2D := fun h => d2 h.symm
      by_cases g2 : b.mTexture.getTextureTarget = L.GL_TEXTURE_EXTERNAL_OES <;>
        simp [g1, g2, n1, n2, n3, n4, m1, m2, m3, m4] at e1
    · by_cases g2 : a.mTexture.getTextureTarget = L.GL_TEXTURE_2D <;>
        simp [d2, g2, n1, n2, n3, n4, m1, m2, m3, m4] at e1
    · by_cases g2 : a.mTexture.getTextureTarget = L.GL_TEXTURE_EXTERNAL_OES <;>
        simp [d2, g2, n1, n2, n3, n4, m1, m2, m3, m4] at e1
  case planeAlphaBelowOne => exact (d3.mpr rfl) e2
  case premultipliedAlpha => exact (d4.mpr rfl) e3
  case opacity => exact (d5.mpr rfl) e4
  case colorMatrixEnabled => exact (d6.mpr rfl) e5
  case stereoEnabled => exact (d7.mpr rfl) e6
  case distortionEnabled => exact (d8.1.mpr rfl) e7

/-- C1 (as stated) fails: with texturing disabled, two descriptions that
differ only in the texture target (2D against external-image) get the same
key. -/
theorem computeKey_untextured_target_collision :
    sampleConsts.WellFormed ∧
    differOnlyIn Field.textureTarget plainDescription plainExternalDescription ∧
    computeKey sampleConsts plainDescription =
      computeKey sampleConsts plainExternalDescription := by
  decide

/-- Witness for C1 (as amended): enabling texturing on the 2D target changes
the key. -/
theorem computeKey_ne_of_single_field_witness :
    sampleConsts.WellFormed ∧
    differOnlyIn Field.textureEnabled plainDescription
      { plainDescription with mTextureEnabled := true } ∧
    computeKey sampleConsts plainDescription ≠
      computeKey sampleConsts { plainDescription with mTextureEnabled := true } :=
  ⟨by decide, by decide,
   computeKey_ne_of_single_field sampleConsts (by decide) Field.textureEnabled
     plainDescription { plainDescription with mTextureEnabled := true } (by decide)
     (fun _ => Or.inr rfl) (fun h => by cases h)⟩

/-- C2: descriptions that agree on every modeled field (texturing enabled,
texture target, plane alpha below 1 or not, premultiplied, opaque, colour
matrix enabled, stereo enabled, distortion enabled) get the same key, whatever
their runtime uniform values are. -/
theorem computeKey_eq_of_agreeOnModeled (L : Consts) (a b : Description)
    (h : agreeOnModeled a b) : computeKey L a = computeKey L b := by
  simp only [agreeOnModeled, Field.all, List.mem_cons, List.mem_singleton, forall_eq_or_imp,
    forall_eq, Field.differs, List.not_mem_nil, IsEmpty.forall_iff, and_true,
    bne_eq_false_iff_eq] at h
  obtain ⟨h1, h2, h3, h4, h5, h6, h7, h8⟩ := h
  simp only [computeKey, h1, h2, h3, h4, h5, h6, h7, h8]

/-- Witness for C2: two layers that differ in the alpha scalar (0.5 against
0.25), texture name and matrix, flat colour, projection, colour matrix,
distortion coefficients and per-view transforms share one key. -/
theorem computeKey_eq_of_agreeOnModeled_witness :
    agreeOnModeled layerHalfAlpha layerQuarterAlpha ∧
    layerHalfAlpha ≠ layerQuarterAlpha ∧
    computeKey sampleConsts layerHalfAlpha = computeKey sampleConsts layerQuarterAlpha :=
  ⟨by decide, by decide,
   computeKey_eq_of_agreeOnModeled sampleConsts layerHalfAlpha layerQuarterAlpha (by decide)⟩

/-- C3: `computeKey` is total and the key it returns has texture mode OFF,
EXTERNAL or TWO_D: EXTERNAL exactly when texturing is enabled and the target
is the external-image target, TWO_D exactly when texturing is enabled and the
target is the 2D target, OFF in every other case; each of the six binary
fields holds one of its two enumerated values. -/
theorem computeKey_texture_mode_valid (L : Consts) (hL : L.WellFormed) (d : Description) :
    ((computeKey L d).getTextureTarget L = L.TEXTURE_OFF ∨
     (computeKey L d).getTextureTarget L = L.TEXTURE_EXT ∨
     (computeKey L d).getTextureTarget L = L.TEXTURE_2D) ∧
    ((computeKey L d).getTextureTarget L = L.TEXTURE_EXT ↔
      d.mTextureEnabled = true ∧ d.mTexture.getTextureTarget = L.GL_TEXTURE_EXTERNAL_OES) ∧
    ((computeKey L d).getTextureTarget L = L.TEXTURE_2D ↔
      d.mTextureEnabled = true ∧ d.mTexture.getTextureTarget = L.GL_TEXTURE_2D) ∧
    ((computeKey L d).getTextureTarget L = L.TEXTURE_OFF ↔
      d.mTextureEnabled = false ∨
      (d.mTexture.getTextureTarget ≠ L.GL_TEXTURE_EXTERNAL_OES ∧
       d.mTexture.getTextureTarget ≠ L.GL_TEXTURE_2D)) ∧
    ((computeKey L d).mKey &&& L.PLANE_ALPHA_MASK = L.PLANE_ALPHA_LT_ONE ∨
     (computeKey L d).mKey &&& L.PLANE_ALPHA_MASK = L.PLANE_ALPHA_EQ_ONE) ∧
    ((computeKey L d).mKey &&& L.BLEND_MASK = L.BLEND_PREMULT ∨
     (computeKey L d).mKey &&& L.BLEND_MASK = L.BLEND_NORMAL) ∧
    ((computeKey L d).mKey &&& L.OPACITY_MASK = L.OPACITY_OPAQUE ∨
     (computeKey L d).mKey &&& L.OPACITY_MASK = L.OPACITY_TRANSLUCENT) ∧
    ((computeKey L d).mKey &&& L.COLOR_MATRIX_MASK = L.COLOR_MATRIX_ON ∨
     (computeKey L d).mKey &&& L.COLOR_MATRIX_MASK = L.COLOR_MATRIX_OFF) ∧
    ((computeKey L d).mKey &&& L.SBS_MASK = L.SBS_ON ∨
     (computeKey L d).mKey &&& L.SBS_MASK = L.SBS_OFF) ∧
    ((computeKey L d).mKey &&& L.DIST_MASK = L.DIST_ON ∨
     (computeKey L d).mKey &&& L.DIST_MASK = L.DIST_OFF) := by
  obtain ⟨-, ⟨⟨-, ⟨n1, n2⟩, n3⟩, -⟩, n4⟩ := hL.facts
  have m1 : ¬L.TEXTURE_EXT = L.TEXTURE_OFF := fun h => n1 h.symm
  have m2 : ¬L.TEXTURE_2D = L.TEXTURE_OFF := fun h => n2 h.symm
  have m3 : ¬L.TEXTURE_2D = L.TEXTURE_EXT := fun h => n3 h.symm
  have m4 : ¬L.GL_TEXTURE_2D = L.GL_TEXTURE_EXTERNAL_OES := fun h => n4 h.symm
  simp only [Key.getTextureTarget, computeKey_texture L hL d, computeKey_planeAlpha L hL d,
    computeKey_blend L hL d, computeKey_opacity L hL d, computeKey_colorMatrix L hL d,
    computeKey_sbs L hL d, computeKey_dist L hL d]
  refine ⟨?_, ?_, ?_, ?_, ?_, ?_, ?_, ?_, ?_, ?_⟩
  · split_ifs <;> simp
  · cases d.mTextureEnabled <;>
      by_cases g1 : d.mTexture.getTextureTarget = L.GL_TEXTURE_EXTERNAL_OES <;>
      by_cases g2 : d.mTexture.getTextureTarget = L.GL_TEXTURE_2D <;>
      simp [g1, g2, n1, n2, n3, m1, m2, m3]
  · cases d.mTextureEnabled <;>
      by_cases g1 : d.mTexture.getTextureTarget = L.GL_TEXTURE_EXTERNAL_OES <;>
      by_cases g2 : d.mTexture.getTextureTarget = L.GL_TEXTURE_2D <;>
      simp [g1, g2, n1, n2, n3, n4, m1, m2, m3, m4]
  · cases d.mTextureEnabled <;>
      by_cases g1 : d.mTexture.getTextureTarget = L.GL_TEXTURE_EXTERNAL_OES <;>
      by_cases g2 : d.mTexture.getTextureTarget = L.GL_TEXTURE_2D <;>
      simp [g1, g2, n1, n2, n3, n4, m1, m2, m3, m4]
  all_goals split_ifs <;> simp

/-- Witness for C3: the half-alpha 2D layer gets texture mode TWO_D. -/
theorem computeKey_texture_mode_valid_witness :
    sampleConsts.WellFormed ∧
    (computeKey sampleConsts layerHalfAlpha).getTextureTarget sampleConsts =
      sampleConsts.TEXTURE_2D :=
  ⟨by decide,
   (computeKey_texture_mode_valid sampleConsts (by decide) layerHalfAlpha).2.2.1.mpr
     ⟨rfl, rfl⟩⟩

/-! ## Program cache -/

theorem KeyedVector.find_insert (es : List (Key × Program)) (key : Key) (p : Program) :
    KeyedVector.find (KeyedVector.insert es key p) key = some p := by
  induction es with
  | nil => simp [KeyedVector.insert, KeyedVector.find]
  | cons e rest ih =>
    obtain ⟨k, q⟩ := e
    by_cases h : k = key
    · simp [KeyedVector.insert, KeyedVector.find, h]
    · simp [KeyedVector.insert, KeyedVector.find, h, ih]

theorem KeyedVector.valueFor_add (v : KeyedVector) (key : Key) (p : Program) :
    (v.add key p).valueFor key = some p :=
  KeyedVector.find_insert v.entries key p

theorem useProgram_valueFor (L : Consts) (links : String → String → Bool) (st : CacheState)
    (d : Description) :
    (useProgram L links st d).2.mCache.valueFor (computeKey L d) =
      some (useProgram L links st d).1 := by
  simp only [useProgram, generateProgram]
  cases h : st.mCache.valueFor (computeKey L d) with
  | none =>
    simp only
    split_ifs <;> exact KeyedVector.valueFor_add _ _ _
  | some p =>
    simp only
    split_ifs <;> exact h

theorem useProgram_of_cached (L : Consts) (links : String → String → Bool) (st : CacheState)
    (d : Description) (p : Program) (h : st.mCache.valueFor (computeKey L d) = some p) :
    useProgram L links st d =
      (p, { st with trace := st.trace ++
              (if p.isValid then [Event.use p, Event.setUniforms p d] else []) }) := by
  simp only [useProgram, h]
  split_ifs <;> simp

/-- C4: from any cache state, when two descriptions have equal keys, calling
`useProgram` on the first and then on the second resolves the same program
both times; the second call leaves the key-to-program mapping and the number
of constructed programs unchanged, and the only calls it adds are `use` and
`setUniforms` on that program (when it is valid): no generator call and no
construction. -/
theorem useProgram_twice_same_program (L : Consts) (links : String → String → Bool)
    (st : CacheState) (d1 d2 : Description) (hk : computeKey L d1 = computeKey L d2) :
    (useProgram L links (useProgram L links st d1).2 d2).1 = (useProgram L links st d1).1 ∧
    (useProgram L links (useProgram L links st d1).2 d2).2.mCache =
      (useProgram L links st d1).2.mCache ∧
    (useProgram L links (useProgram L links st d1).2 d2).2.constructed =
      (useProgram L links st d1).2.constructed ∧
    (useProgram L links (useProgram L links st d1).2 d2).2.trace =
      (useProgram L links st d1).2.trace ++
        (if (useProgram L links st d1).1.isValid
         then [Event.use (useProgram L links st d1).1,
               Event.setUniforms (useProgram L links st d1).1 d2]
         else []) := by
  have h := useProgram_valueFor L links st d1
  rw [hk] at h
  rw [useProgram_of_cached L links _ d2 _ h]
  exact ⟨rfl, rfl, rfl, rfl⟩

/-- Witness for C4: the two sample layers share a key; starting from the empty
cache the second call resolves the program of the first. -/
theorem useProgram_twice_same_program_witness :
    computeKey sampleConsts layerHalfAlpha = computeKey sampleConsts layerQuarterAlpha ∧
    (useProgram sampleConsts (fun _ _ => true)
        (useProgram sampleConsts (fun _ _ => true) CacheState.empty layerHalfAlpha).2
        layerQuarterAlpha).1 =
      (useProgram sampleConsts (fun _ _ => true) CacheState.empty layerHalfAlpha).1 :=
  ⟨by decide,
   (useProgram_twice_same_program sampleConsts (fun _ _ => true) CacheState.empty
     layerHalfAlpha layerQuarterAlpha (by decide)).1⟩


/-! ## Lines of the generated shaders -/

theorem Formatter.appendIndent_eq (n : Nat) (s : String) :
    Formatter.appendIndent n s = s ++ indentText n := by
  induction n generalizing s with
  | zero => simp [Formatter.appendIndent, indentText]
  | succ n ih => simp [Formatter.appendIndent, indentText, ih, String.append_assoc]

theorem joinLines_append (xs ys : List String) :
    joinLines (xs ++ ys) = joinLines xs ++ joinLines ys := by
  induction xs with
  | nil => simp [joinLines]
  | cons x xs ih => simp [joinLines, ih, String.append_assoc]

theorem LineBuffer.toFormatter_write (b : LineBuffer) (s : String) :
    (ShaderWriter.write b s).toFormatter = ShaderWriter.write b.toFormatter s := by
  simp [ShaderWriter.write, LineBuffer.toFormatter, Formatter.write, joinLines_append,
    joinLines, Formatter.appendIndent_eq, String.append_assoc]

theorem LineBuffer.toFormatter_indent (b : LineBuffer) :
    (ShaderWriter.indent b).toFormatter = ShaderWriter.indent b.toFormatter := rfl

theorem LineBuffer.toFormatter_dedent (b : LineBuffer) :
    (ShaderWriter.dedent b).toFormatter = ShaderWriter.dedent b.toFormatter := rfl

/-- Writing lines into the buffer and taking their text is the same as
writing them with `Formatter`. -/
theorem fragmentShaderOf_toFormatter (b : LineBuffer)
    (isExt is2D isOff : Prop) [Decidable isExt] [Decidable is2D] [Decidable isOff]
    (t a c s o p : Bool) :
    (fragmentShaderOf b isExt is2D isOff t a c s o p).toFormatter =
      fragmentShaderOf b.toFormatter isExt is2D isOff t a c s o p := by
  simp only [fragmentShaderOf, HShiftLeft.hShiftLeft, apply_ite LineBuffer.toFormatter,
    LineBuffer.toFormatter_write, LineBuffer.toFormatter_indent, LineBuffer.toFormatter_dedent]

/-- The generator of the source is the builder-generic statement sequence run
by `Formatter` on the conditions of the key. -/
theorem generateFragmentShader_eq (L : Consts) (k : Key) :
    generateFragmentShader L k =
      (fragmentShaderOf Formatter.new (k.getTextureTarget L = L.TEXTURE_EXT)
        (k.getTextureTarget L = L.TEXTURE_2D) (k.getTextureTarget L = L.TEXTURE_OFF)
        (k.isTexturing L) (k.hasPlaneAlpha L) (k.hasColorMatrix L) (k.hasSBSEnabled L)
        (k.isOpaque L) (k.isPremultiplied L)).getString := rfl

theorem splitLines_line (l rest : List Char) (h : '\n' ∉ l) :
    splitLines (l ++ '\n' :: rest) = l :: splitLines rest := by
  induction l with
  | nil => simp [splitLines]
  | cons c cs ih =>
    have hc : c ≠ '\n' := fun e => h (by simp [e])
    have hcs : '\n' ∉ cs := fun e => h (by simp [e])
    simp [splitLines, hc, ih hcs]

/-- Splitting the text of newline-free lines gives the lines back. -/
theorem textLines_joinLines (ls : List String) (h : ∀ l ∈ ls, '\n' ∉ l.data) :
    textLines (joinLines ls) = ls := by
  induction ls with
  | nil => rfl
  | cons l ls ih =>
    have hl : '\n' ∉ l.data := h l (by simp)
    have hls : ∀ x ∈ ls, '\n' ∉ x.data := fun x hx => h x (by simp [hx])
    have ih' := ih hls
    simp only [textLines] at ih' ⊢
    simp only [joinLines, String.data_append]
    rw [List.append_assoc, List.singleton_append, splitLines_line _ _ hl, List.map_cons, ih']

/-- The generic statement sequence depends on the three tests only through
their truth values. -/
theorem fragmentShaderOf_congr {F : Type} [ShaderWriter F] (start : F)
    (p1 p2 p3 q1 q2 q3 : Prop) [Decidable p1] [Decidable p2] [Decidable p3]
    [Decidable q1] [Decidable q2] [Decidable q3]
    (h1 : p1 ↔ q1) (h2 : p2 ↔ q2) (h3 : p3 ↔ q3) (t a c s o p : Bool) :
    fragmentShaderOf start p1 p2 p3 t a c s o p =
      fragmentShaderOf start q1 q2 q3 t a c s o p := by
  obtain rfl : p1 = q1 := propext h1
  obtain rfl : p2 = q2 := propext h2
  obtain rfl : p3 = q3 := propext h3
  congr

set_option maxRecDepth 1000000 in
theorem fragmentLines_no_newline :
    ∀ b1 b2 b3 a c s o p : Bool, ∀ l ∈ fragmentLines b1 b2 b3 a c s o p, '\n' ∉ l.data := by
  decide!

/-- The fragment shader text has exactly the lines of `fragmentLines`. -/
theorem textLines_generateFragmentShader (L : Consts) (k : Key) :
    textLines (generateFragmentShader L k) =
      fragmentLines (decide (k.getTextureTarget L = L.TEXTURE_EXT))
        (decide (k.getTextureTarget L = L.TEXTURE_2D))
        (decide (k.getTextureTarget L = L.TEXTURE_OFF))
        (k.hasPlaneAlpha L) (k.hasColorMatrix L) (k.hasSBSEnabled L) (k.isOpaque L)
        (k.isPremultiplied L) := by
  have hT : k.isTexturing L = !decide (k.getTextureTarget L = L.TEXTURE_OFF) := by
    simp [Key.isTexturing, Key.getTextureTarget]
  have e : Formatter.new = LineBuffer.toFormatter ⟨[], 0⟩ := rfl
  rw [generateFragmentShader_eq, hT, e,
    fragmentShaderOf_congr _ _ _ _ _ _ _ (decide_eq_true_iff).symm (decide_eq_true_iff).symm
      (decide_eq_true_iff).symm,
    ← fragmentShaderOf_toFormatter]
  exact textLines_joinLines _ (fragmentLines_no_newline _ _ _ _ _ _ _ _)

/-- The three tests on the texture mode as Boolean flags. -/
theorem texture_flags (L : Consts) (k : Key) :
    ∃ b1 b2 b3 : Bool,
      (k.getTextureTarget L = L.TEXTURE_EXT) = (b1 = true) ∧
      (k.getTextureTarget L = L.TEXTURE_2D) = (b2 = true) ∧
      (k.getTextureTarget L = L.TEXTURE_OFF) = (b3 = true) :=
  ⟨decide (k.getTextureTarget L = L.TEXTURE_EXT), decide (k.getTextureTarget L = L.TEXTURE_2D),
   decide (k.getTextureTarget L = L.TEXTURE_OFF), by simp, by simp, by simp⟩

/-- With well-formed constants at most one of the three tests succeeds. -/
theorem texture_flags_exclusive (L : Consts) (hL : L.WellFormed) (k : Key) (b1 b2 b3 : Bool)
    (h1 : (k.getTextureTarget L = L.TEXTURE_EXT) = (b1 = true))
    (h2 : (k.getTextureTarget L = L.TEXTURE_2D) = (b2 = true))
    (h3 : (k.getTextureTarget L = L.TEXTURE_OFF) = (b3 = true)) :
    (b1 && b2) = false ∧ (b1 && b3) = false ∧ (b2 && b3) = false := by
  obtain ⟨-, ⟨⟨-, ⟨n1, n2⟩, n3⟩, -⟩, -⟩ := hL.facts
  cases b1 <;> cases b2 <;> cases b3 <;> simp_all

set_option maxRecDepth 1000000 in
theorem fragmentLines_declarations :
    ∀ b1 b2 b3 a c s o p : Bool,
      (b1 && b2) = false → (b1 && b3) = false → (b2 && b3) = false →
      (fragmentLines b1 b2 b3 a c s o p).filter isUniformOrVarying =
        (if b1 then ["uniform samplerExternalOES sampler;", "varying vec2 outTexCoords;"]
         else []) ++
        (if b2 then ["uniform sampler2D sampler;", "varying vec2 outTexCoords;"] else []) ++
        (if b3 then ["uniform vec4 color;"] else []) ++
        (if a then ["uniform float alphaPlane;"] else []) ++
        (if c then ["uniform mat4 colorMatrix;"] else []) ++
        (if s then ["varying vec3 fragpos1;", "varying vec3 fragpos2;",
                    "uniform vec4 distortParam;"] else []) ∧
      (shaderDecls (fragmentLines b1 b2 b3 a c s o p)).filter (fun l => !isUniformOrVarying l) =
        (if b1 then ["#extension GL_OES_EGL_image_external : require"] else []) ++
        ["precision mediump float;"] ++
        (if s then
          ["vec2 Distort(vec2 pa) \x7b",
           "   vec2 p = 2.0*pa - 1.0;",
           "   p = clamp(p, vec2(-1.1), vec2(1.1));",
           "   float rSq = p.x*p.x*3.16+p.y*p.y;",
           "   return p * (distortParam.x + distortParam.y*rSq + distortParam.z*rSq*rSq + distortParam.w*rSq*rSq*rSq)/2.0 + 0.5;",
           "\x7d"] else []) := by
  decide!

/-- C6: the `uniform` and `varying` lines of the fragment shader are exactly
the ones the key implies, in this order and no others: the external-image
sampler with the `outTexCoords` varying iff the texture mode is EXTERNAL, the
2D sampler with the `outTexCoords` varying iff it is TWO_D, the flat colour
uniform iff it is OFF, `alphaPlane` iff plane alpha is LT_ONE, `colorMatrix`
iff the colour matrix is ON, `fragpos1`, `fragpos2` and `distortParam` iff
stereo is ON.  The other lines before `main` are the extension directive (iff
EXTERNAL), the precision line, and the `Distort` helper iff stereo is ON. -/
theorem generateFragmentShader_declarations (L : Consts) (hL : L.WellFormed) (k : Key) :
    (textLines (generateFragmentShader L k)).filter isUniformOrVarying =
      (if k.getTextureTarget L = L.TEXTURE_EXT then
        ["uniform samplerExternalOES sampler;", "varying vec2 outTexCoords;"] else []) ++
      (if k.getTextureTarget L = L.TEXTURE_2D then
        ["uniform sampler2D sampler;", "varying vec2 outTexCoords;"] else []) ++
      (if k.getTextureTarget L = L.TEXTURE_OFF then ["uniform vec4 color;"] else []) ++
      (if k.hasPlaneAlpha L then ["uniform float alphaPlane;"] else []) ++
      (if k.hasColorMatrix L then ["uniform mat4 colorMatrix;"] else []) ++
      (if k.hasSBSEnabled L then
        ["varying vec3 fragpos1;", "varying vec3 fragpos2;", "uniform vec4 distortParam;"]
       else []) ∧
    (fragmentDecls L k).filter (fun l => !isUniformOrVarying l) =
      (if k.getTextureTarget L = L.TEXTURE_EXT then
        ["#extension GL_OES_EGL_image_external : require"] else []) ++
      ["precision mediump float;"] ++
      (if k.hasSBSEnabled L then
        ["vec2 Distort(vec2 pa) \x7b",
         "   vec2 p = 2.0*pa - 1.0;",
         "   p = clamp(p, vec2(-1.1), vec2(1.1));",
         "   float rSq = p.x*p.x*3.16+p.y*p.y;",
         "   return p * (distortParam.x + distortParam.y*rSq + distortParam.z*rSq*rSq + distortParam.w*rSq*rSq*rSq)/2.0 + 0.5;",
         "\x7d"] else []) := by
  obtain ⟨b1, b2, b3, h1, h2, h3⟩ := texture_flags L k
  obtain ⟨x1, x2, x3⟩ := texture_flags_exclusive L hL k b1 b2 b3 h1 h2 h3
  rw [fragmentDecls, textLines_generateFragmentShader]
  simp only [h1, h2, h3, Bool.decide_eq_true]
  exact fragmentLines_declarations b1 b2 b3 _ _ _ _ _ x1 x2 x3

/-- Witness for C6: an untextured translucent key declares the flat colour
uniform and nothing else. -/
theorem generateFragmentShader_declarations_witness :
    sampleConsts.WellFormed ∧
    (textLines (generateFragmentShader sampleConsts
        (computeKey sampleConsts plainDescription))).filter isUniformOrVarying =
      ["uniform vec4 color;"] :=
  ⟨by decide,
   (generateFragmentShader_declarations sampleConsts (by decide)
     (computeKey sampleConsts plainDescription)).1⟩

set_option maxRecDepth 1000000 in
theorem fragmentLines_colorMatrix :
    ∀ b1 b2 b3 a s o p : Bool,
      (unPremultiply ∈ shaderBody (fragmentLines b1 b2 b3 a true s o p) ↔
        (o = false ∧ p = true)) ∧
      (rePremultiply ∈ shaderBody (fragmentLines b1 b2 b3 a true s o p) ↔
        (o = false ∧ p = true)) ∧
      (o = false ∧ p = true →
        isBefore unPremultiply linearize (shaderBody (fragmentLines b1 b2 b3 a true s o p))
          = true ∧
        isBefore reEncode rePremultiply (shaderBody (fragmentLines b1 b2 b3 a true s o p))
          = true) := by
  decide!

/-- C7 (as amended): for a key with the colour matrix ON, the fragment shader
body contains the un-premultiply statement, before the linearization, and the
re-premultiply statement, after the re-encoding, exactly when the key is
TRANSLUCENT and PREMULTIPLIED; in every other case it contains neither. -/
theorem generateFragmentShader_unpremultiply (L : Consts) (k : Key)
    (hcm : k.hasColorMatrix L = true) :
    (unPremultiply ∈ fragmentBody L k ↔ (k.isOpaque L = false ∧ k.isPremultiplied L = true)) ∧
    (rePremultiply ∈ fragmentBody L k ↔ (k.isOpaque L = false ∧ k.isPremultiplied L = true)) ∧
    (k.isOpaque L = false ∧ k.isPremultiplied L = true →
      isBefore unPremultiply linearize (fragmentBody L k) = true ∧
      isBefore reEncode rePremultiply (fragmentBody L k) = true) := by
  rw [fragmentBody, textLines_generateFragmentShader, hcm]
  exact fragmentLines_colorMatrix _ _ _ _ _ _ _

set_option maxRecDepth 1000000 in
/-- C7 (as stated) fails: for an OPAQUE and PREMULTIPLIED key with the colour
matrix ON it is not the case that the key is both OPAQUE and not
premultiplied, yet the body has neither the un-premultiply nor the
re-premultiply statement. -/
theorem generateFragmentShader_opaque_premultiplied_keeps_alpha :
    (computeKey sampleConsts opaquePremultColorMatrix).hasColorMatrix sampleConsts = true ∧
    ¬ ((computeKey sampleConsts opaquePremultColorMatrix).isOpaque sampleConsts = true ∧
       (computeKey sampleConsts opaquePremultColorMatrix).isPremultiplied sampleConsts = false) ∧
    unPremultiply ∉ fragmentBody sampleConsts (computeKey sampleConsts opaquePremultColorMatrix) ∧
    rePremultiply ∉ fragmentBody sampleConsts (computeKey sampleConsts opaquePremultColorMatrix) := by
  rw [fragmentBody, textLines_generateFragmentShader]
  decide!

/-- Witness for C7 (as amended): a translucent premultiplied layer with the
colour matrix ON has the un-premultiply statement. -/
theorem generateFragmentShader_unpremultiply_witness :
    (computeKey sampleConsts { layerHalfAlpha with mColorMatrixEnabled := true }).hasColorMatrix
      sampleConsts = true ∧
    unPremultiply ∈ fragmentBody sampleConsts
      (computeKey sampleConsts { layerHalfAlpha with mColorMatrixEnabled := true }) :=
  ⟨by decide,
   (generateFragmentShader_unpremultiply sampleConsts
     (computeKey sampleConsts { layerHalfAlpha with mColorMatrixEnabled := true })
     (by decide)).1.mpr (by decide)⟩

set_option maxRecDepth 1000000 in
theorem fragmentLines_alphaScale :
    ∀ b1 b2 b3 a c s o p : Bool,
      ("    gl_FragColor *= alphaPlane;" ∈ shaderBody (fragmentLines b1 b2 b3 a c s o p) ↔
        a = true ∧ p = true) ∧
      ("    gl_FragColor.a *= alphaPlane;" ∈ shaderBody (fragmentLines b1 b2 b3 a c s o p) ↔
        a = true ∧ p = false) := by
  decide!

/-- C8: the fragment shader body contains the whole-colour multiply
`gl_FragColor *= alphaPlane;` exactly when plane alpha is LT_ONE and the blend
mode is PREMULTIPLIED, and the alpha-only multiply
`gl_FragColor.a *= alphaPlane;` exactly when plane alpha is LT_ONE and the
blend mode is NORMAL; so with LT_ONE it has one and not the other, and with
EQ_ONE neither. -/
theorem generateFragmentShader_alphaScale (L : Consts) (k : Key) :
    ("    gl_FragColor *= alphaPlane;" ∈ fragmentBody L k ↔
        k.hasPlaneAlpha L = true ∧ k.isPremultiplied L = true) ∧
    ("    gl_FragColor.a *= alphaPlane;" ∈ fragmentBody L k ↔
        k.hasPlaneAlpha L = true ∧ k.isPremultiplied L = false) := by
  rw [fragmentBody, textLines_generateFragmentShader]
  exact fragmentLines_alphaScale _ _ _ _ _ _ _ _

set_option maxRecDepth 1000000 in
theorem fragmentLines_alphaForcing :
    ∀ b1 b2 b3 a c s o p : Bool,
      (b1 && b3) = false → (b2 && b3) = false →
      (alphaForcing ∈ shaderBody (fragmentLines b1 b2 b3 a c s o p) ↔ o = true) ∧
      (∀ x ∈ colourAssignments, x ∈ shaderBody (fragmentLines b1 b2 b3 a c s o p) →
        alphaForcing ∈ shaderBody (fragmentLines b1 b2 b3 a c s o p) →
        isBefore x alphaForcing (shaderBody (fragmentLines b1 b2 b3 a c s o p)) = true ∧
        isBefore alphaForcing x (shaderBody (fragmentLines b1 b2 b3 a c s o p)) = false) ∧
      (∀ y ∈ alphaScaleAndColorMatrix, y ∈ shaderBody (fragmentLines b1 b2 b3 a c s o p) →
        alphaForcing ∈ shaderBody (fragmentLines b1 b2 b3 a c s o p) →
        isBefore alphaForcing y (shaderBody (fragmentLines b1 b2 b3 a c s o p)) = true ∧
        isBefore y alphaForcing (shaderBody (fragmentLines b1 b2 b3 a c s o p)) = false) ∧
      (b3 = true → o = true →
        "uniform vec4 color;" ∈ shaderDecls (fragmentLines b1 b2 b3 a c s o p) ∧
        (∀ l ∈ fragmentLines b1 b2 b3 a c s o p, hasPrefix "uniform sampler" l = false) ∧
        isBefore "    gl_FragColor = color;" alphaForcing
          (shaderBody (fragmentLines b1 b2 b3 a c s o p)) = true) := by
  decide!

/-- C9: the fragment shader body contains `gl_FragColor.a = 1.0;` iff the key
is OPAQUE; when present it comes after every statement assigning the output
colour from the flat colour uniform or the texture, and before every
alpha-scale and colour-matrix statement; with texture mode OFF and OPAQUE the
shader declares the flat colour uniform, declares no sampler, and forces
alpha after `gl_FragColor = color;`. -/
theorem generateFragmentShader_alphaForcing (L : Consts) (hL : L.WellFormed) (k : Key) :
    (alphaForcing ∈ fragmentBody L k ↔ k.isOpaque L = true) ∧
    (∀ x ∈ colourAssignments, x ∈ fragmentBody L k → alphaForcing ∈ fragmentBody L k →
      isBefore x alphaForcing (fragmentBody L k) = true ∧
      isBefore alphaForcing x (fragmentBody L k) = false) ∧
    (∀ y ∈ alphaScaleAndColorMatrix, y ∈ fragmentBody L k → alphaForcing ∈ fragmentBody L k →
      isBefore alphaForcing y (fragmentBody L k) = true ∧
      isBefore y alphaForcing (fragmentBody L k) = false) ∧
    (k.getTextureTarget L = L.TEXTURE_OFF → k.isOpaque L = true →
      "uniform vec4 color;" ∈ fragmentDecls L k ∧
      (∀ l ∈ textLines (generateFragmentShader L k), hasPrefix "uniform sampler" l = false) ∧
      isBefore "    gl_FragColor = color;" alphaForcing (fragmentBody L k) = true) := by
  obtain ⟨b1, b2, b3, h1, h2, h3⟩ := texture_flags L k
  obtain ⟨-, x2, x3⟩ := texture_flags_exclusive L hL k b1 b2 b3 h1 h2 h3
  rw [fragmentBody, fragmentDecls, textLines_generateFragmentShader]
  simp only [h1, h2, h3, Bool.decide_eq_true]
  exact fragmentLines_alphaForcing b1 b2 b3 _ _ _ _ _ x2 x3

/-- Witness for C9: an untextured opaque key forces alpha. -/
theorem generateFragmentShader_alphaForcing_witness :
    sampleConsts.WellFormed ∧
    alphaForcing ∈ fragmentBody sampleConsts
      (computeKey sampleConsts { plainDescription with mOpaque := true }) :=
  ⟨by decide,
   (generateFragmentShader_alphaForcing sampleConsts (by decide)
     (computeKey sampleConsts { plainDescription with mOpaque := true })).1.mpr (by decide)⟩

set_option maxRecDepth 1000000 in
/-- C10: the vertex shader is exactly this sequence of lines: the `texCoords`
attribute and `outTexCoords` varying iff texturing; the `fragpos1`, `fragpos2`
varyings and `win1m`, `win2m` uniforms iff stereo; the position attribute and
the projection and texture uniforms; the opening of `main`; the clip-space
position statement; the texture-coordinate transform iff texturing; the three
stereo statements iff stereo; the closing brace. -/
theorem generateVertexShader_lines (L : Consts) (k : Key) :
    generateVertexShader L k = joinLines (
      (if k.isTexturing L then ["attribute vec4 texCoords;", "varying vec2 outTexCoords;"]
       else []) ++
      (if k.hasSBSEnabled L then
        ["varying vec3 fragpos1;", "varying vec3 fragpos2;",
         "uniform mat3 win1m;", "uniform mat3 win2m;"] else []) ++
      ["attribute vec4 position;", "uniform mat4 projection;", "uniform mat4 texture;",
       "void main(void) \x7b",
       "    gl_Position = projection * position;"] ++
      (if k.isTexturing L then ["    outTexCoords = (texture * texCoords).st;"] else []) ++
      (if k.hasSBSEnabled L then
        ["    vec2 x = texCoords.xy;",
         "    fragpos1 = (vec3(x,1.0)*win1m+1.0)/2.0;",
         "    fragpos2 = (vec3(x,1.0)*win2m+1.0)/2.0;"] else []) ++
      ["\x7d"]) := by
  unfold generateVertexShader
  cases k.isTexturing L <;> cases k.hasSBSEnabled L <;> decide

set_option maxRecDepth 1000000 in
/-- C5 at its failing input: for the key of a description with stereo enabled
and texturing disabled the vertex shader is the text below, and its only line
that mentions `texCoords` is the body statement `vec2 x = texCoords.xy;`: the
identifier is used and declared nowhere. -/
theorem generateVertexShader_stereo_untextured :
    generateVertexShader sampleConsts (computeKey sampleConsts stereoUntextured) =
      joinLines
        ["varying vec3 fragpos1;", "varying vec3 fragpos2;",
         "uniform mat3 win1m;", "uniform mat3 win2m;",
         "attribute vec4 position;", "uniform mat4 projection;", "uniform mat4 texture;",
         "void main(void) \x7b",
         "    gl_Position = projection * position;",
         "    vec2 x = texCoords.xy;",
         "    fragpos1 = (vec3(x,1.0)*win1m+1.0)/2.0;",
         "    fragpos2 = (vec3(x,1.0)*win2m+1.0)/2.0;",
         "\x7d"] ∧
    (textLines (generateVertexShader sampleConsts
        (computeKey sampleConsts stereoUntextured))).filter (mentions "texCoords") =
      ["    vec2 x = texCoords.xy;"] := by
  decide

/-! ## Cache misses and sequences of calls -/

theorem KeyedVector.find_insert_other (es : List (Key × Program)) (key k : Key) (p : Program)
    (h : k ≠ key) : KeyedVector.find (KeyedVector.insert es key p) k = KeyedVector.find es k := by
  induction es with
  | nil => simp [KeyedVector.insert, KeyedVector.find, Ne.symm h]
  | cons e rest ih =>
    obtain ⟨k0, q⟩ := e
    by_cases h0 : k0 = key
    · subst h0
      simp [KeyedVector.insert, KeyedVector.find, Ne.symm h]
    · by_cases h1 : k0 = k
      · subst h1
        simp [KeyedVector.insert, KeyedVector.find, h]
      · simp [KeyedVector.insert, KeyedVector.find, h0, h1, ih]

/-- What `useProgram` does on a miss. -/
theorem useProgram_of_miss (L : Consts) (links : String → String → Bool) (st : CacheState)
    (d : Description) (h : st.mCache.valueFor (computeKey L d) = none) :
    useProgram L links st d =
      (programFor L links st.constructed (computeKey L d),
       { mCache := st.mCache.add (computeKey L d)
           (programFor L links st.constructed (computeKey L d)),
         constructed := st.constructed + 1,
         trace := st.trace ++
           [Event.generatedVertexShader (computeKey L d),
            Event.generatedFragmentShader (computeKey L d),
            Event.constructed (programFor L links st.constructed (computeKey L d))] ++
           activation (programFor L links st.constructed (computeKey L d)) d }) := by
  simp only [useProgram, generateProgram, h, programFor, activation]
  split_ifs <;> simp

/-- A stored program stays stored, under the same key, across a call. -/
theorem useProgram_preserves (L : Consts) (links : String → String → Bool) (st : CacheState)
    (d : Description) (k : Key) (p : Program) (h : st.mCache.valueFor k = some p) :
    (useProgram L links st d).2.mCache.valueFor k = some p := by
  cases hm : st.mCache.valueFor (computeKey L d) with
  | none =>
    have hne : k ≠ computeKey L d := fun e => by rw [e, hm] at h; cases h
    rw [useProgram_of_miss L links st d hm]
    simp only [KeyedVector.valueFor, KeyedVector.add]
    rw [KeyedVector.find_insert_other _ _ _ _ hne]
    exact h
  | some q =>
    rw [useProgram_of_cached L links st d q hm]
    exact h

theorem useProgramAll_preserves (L : Consts) (links : String → String → Bool)
    (ds : List Description) (st : CacheState) (k : Key) (p : Program)
    (h : st.mCache.valueFor k = some p) :
    (useProgramAll L links st ds).mCache.valueFor k = some p := by
  induction ds generalizing st with
  | nil => exact h
  | cons d ds ih => exact ih _ (useProgram_preserves L links st d k p h)

/-- The keys with an entry after a call: those before, and the key of the
description. -/
theorem useProgram_isSome (L : Consts) (links : String → String → Bool) (st : CacheState)
    (d : Description) (k : Key) :
    ((useProgram L links st d).2.mCache.valueFor k).isSome = true ↔
      (st.mCache.valueFor k).isSome = true ∨ k = computeKey L d := by
  constructor
  · intro h
    by_cases hk : k = computeKey L d
    · exact Or.inr hk
    · left
      cases hm : st.mCache.valueFor (computeKey L d) with
      | none =>
        rw [useProgram_of_miss L links st d hm] at h
        simp only [KeyedVector.valueFor, KeyedVector.add] at h
        rw [KeyedVector.find_insert_other _ _ _ _ hk] at h
        exact h
      | some q =>
        rw [useProgram_of_cached L links st d q hm] at h
        exact h
  · rintro (h | h)
    · obtain ⟨p, hp⟩ := Option.isSome_iff_exists.mp h
      rw [useProgram_preserves L links st d k p hp]
      rfl
    · rw [h, useProgram_valueFor]
      rfl

theorem useProgramAll_isSome (L : Consts) (links : String → String → Bool)
    (ds : List Description) (st : CacheState) (k : Key) :
    ((useProgramAll L links st ds).mCache.valueFor k).isSome = true ↔
      (st.mCache.valueFor k).isSome = true ∨ k ∈ ds.map (computeKey L) := by
  induction ds generalizing st with
  | nil => simp [useProgramAll]
  | cons d ds ih =>
    have := ih (useProgram L links st d).2
    simp only [useProgramAll, List.foldl_cons] at this ⊢
    rw [this, useProgram_isSome]
    simp only [List.map_cons, List.mem_cons]
    tauto

theorem useProgramAll_append (L : Consts) (links : String → String → Bool)
    (st : CacheState) (xs ys : List Description) :
    useProgramAll L links st (xs ++ ys) =
      useProgramAll L links (useProgramAll L links st xs) ys := by
  simp [useProgramAll, List.foldl_append]

/-- C11: when the key of the description is not cached, `useProgram` resolves
the newly constructed program and stores it under that key whether or not it
is valid; after the two generator calls and the construction it calls `use`
and then `setUniforms` with the description exactly when the program is valid
and makes no call otherwise; after any further calls, a later `useProgram`
with the same key resolves that stored program, constructs nothing, and again
only activates it when it is valid. -/
theorem useProgram_miss_stores (L : Consts) (links : String → String → Bool) (st : CacheState)
    (d : Description) (hmiss : st.mCache.valueFor (computeKey L d) = none) :
    (useProgram L links st d).1 = programFor L links st.constructed (computeKey L d) ∧
    (useProgram L links st d).2.mCache.valueFor (computeKey L d) =
      some (programFor L links st.constructed (computeKey L d)) ∧
    (useProgram L links st d).2.trace =
      st.trace ++
        [Event.generatedVertexShader (computeKey L d),
         Event.generatedFragmentShader (computeKey L d),
         Event.constructed (programFor L links st.constructed (computeKey L d))] ++
        (if (programFor L links st.constructed (computeKey L d)).isValid = true then
          [Event.use (programFor L links st.constructed (computeKey L d)),
           Event.setUniforms (programFor L links st.constructed (computeKey L d)) d]
         else []) ∧
    (∀ (between : List Description) (later : Description),
      computeKey L later = computeKey L d →
      (useProgram L links
          (useProgramAll L links (useProgram L links st d).2 between) later).1 =
        programFor L links st.constructed (computeKey L d) ∧
      (useProgram L links
          (useProgramAll L links (useProgram L links st d).2 between) later).2.constructed =
        (useProgramAll L links (useProgram L links st d).2 between).constructed ∧
      (useProgram L links
          (useProgramAll L links (useProgram L links st d).2 between) later).2.trace =
        (useProgramAll L links (useProgram L links st d).2 between).trace ++
          (if (programFor L links st.constructed (computeKey L d)).isValid = true then
            [Event.use (programFor L links st.constructed (computeKey L d)),
             Event.setUniforms (programFor L links st.constructed (computeKey L d)) later]
           else [])) := by
  have hstored : (useProgram L links st d).2.mCache.valueFor (computeKey L d) =
      some (programFor L links st.constructed (computeKey L d)) := by
    rw [useProgram_valueFor, useProgram_of_miss L links st d hmiss]
  refine ⟨by rw [useProgram_of_miss L links st d hmiss], hstored,
    by rw [useProgram_of_miss L links st d hmiss]; rfl, ?_⟩
  intro between later hk
  have h := useProgramAll_preserves L links between _ _ _ hstored
  have h' : (useProgramAll L links (useProgram L links st d).2 between).mCache.valueFor
      (computeKey L later) = some (programFor L links st.constructed (computeKey L d)) := by
    rw [hk]; exact h
  rw [useProgram_of_cached L links _ later _ h']
  exact ⟨rfl, rfl, rfl⟩

/-- Witness for C11: with a driver that links nothing, the first call on the
empty cache stores the invalid program under the key of the layer. -/
theorem useProgram_miss_stores_witness :
    CacheState.empty.mCache.valueFor (computeKey sampleConsts layerHalfAlpha) = none ∧
    (useProgram sampleConsts (fun _ _ => false) CacheState.empty layerHalfAlpha).2.mCache.valueFor
        (computeKey sampleConsts layerHalfAlpha) =
      some (programFor sampleConsts (fun _ _ => false) 0
        (computeKey sampleConsts layerHalfAlpha)) :=
  ⟨by decide,
   (useProgram_miss_stores sampleConsts (fun _ _ => false) CacheState.empty layerHalfAlpha
     (by decide)).2.1⟩

/-- Every stored program was built by `generateProgram` for the key it is
stored under; the property is kept by every call. -/
theorem useProgram_programFor (L : Consts) (links : String → String → Bool) (st : CacheState)
    (d : Description)
    (h : ∀ k p, st.mCache.valueFor k = some p → p = programFor L links p.id k) :
    ∀ k p, (useProgram L links st d).2.mCache.valueFor k = some p →
      p = programFor L links p.id k := by
  intro k p hp
  cases hm : st.mCache.valueFor (computeKey L d) with
  | none =>
    rw [useProgram_of_miss L links st d hm] at hp
    by_cases hk : k = computeKey L d
    · subst hk
      simp only [KeyedVector.valueFor, KeyedVector.add, KeyedVector.find_insert] at hp
      cases hp
      rfl
    · simp only [KeyedVector.valueFor, KeyedVector.add] at hp
      rw [KeyedVector.find_insert_other _ _ _ _ hk] at hp
      exact h k p hp
  | some q =>
    rw [useProgram_of_cached L links st d q hm] at hp
    exact h k p hp

theorem useProgramAll_programFor (L : Consts) (links : String → String → Bool)
    (ds : List Description) (st : CacheState)
    (h : ∀ k p, st.mCache.valueFor k = some p → p = programFor L links p.id k) :
    ∀ k p, (useProgramAll L links st ds).mCache.valueFor k = some p →
      p = programFor L links p.id k := by
  induction ds generalizing st with
  | nil => exact h
  | cons d ds ih => exact ih _ (useProgram_programFor L links st d h)

/-- C12: starting from the empty cache, after any finite sequence of
`useProgram` calls the keys with an entry are exactly the keys of the
descriptions seen; every stored program carries its key and the vertex and
fragment texts generated for that key; it is the program constructed by the
call that saw the key for the first time; and no call, from any state,
removes an entry or replaces the program stored under a key. -/
theorem useProgramAll_cache_contents (L : Consts) (links : String → String → Bool)
    (ds : List Description) :
    (∀ k, ((useProgramAll L links CacheState.empty ds).mCache.valueFor k).isSome = true ↔
      k ∈ ds.map (computeKey L)) ∧
    (∀ k p, (useProgramAll L links CacheState.empty ds).mCache.valueFor k = some p →
      p.mNeeds = k ∧ p.mVertexSource = generateVertexShader L k ∧
      p.mFragmentSource = generateFragmentShader L k) ∧
    (∀ pre d post, ds = pre ++ d :: post → computeKey L d ∉ pre.map (computeKey L) →
      (useProgram L links (useProgramAll L links CacheState.empty pre) d).1 =
        programFor L links (useProgramAll L links CacheState.empty pre).constructed
          (computeKey L d) ∧
      (useProgramAll L links CacheState.empty ds).mCache.valueFor (computeKey L d) =
        some (programFor L links (useProgramAll L links CacheState.empty pre).constructed
          (computeKey L d))) ∧
    (∀ (st : CacheState) (d : Description) (k : Key) (p : Program),
      st.mCache.valueFor k = some p →
      (useProgram L links st d).2.mCache.valueFor k = some p) := by
  have hempty : ∀ k, (CacheState.empty.mCache.valueFor k).isSome = false := fun k => rfl
  refine ⟨?_, ?_, ?_, fun st d k p h => useProgram_preserves L links st d k p h⟩
  · intro k
    rw [useProgramAll_isSome, hempty]
    simp
  · intro k p hp
    have h := useProgramAll_programFor L links ds CacheState.empty
      (fun k p hkp => by cases hkp) k p hp
    rw [h]
    exact ⟨rfl, rfl, rfl⟩
  · intro pre d post hds hnew
    have hmiss : (useProgramAll L links CacheState.empty pre).mCache.valueFor (computeKey L d)
        = none := by
      have := (useProgramAll_isSome L links pre CacheState.empty (computeKey L d)).not.mpr
        (by rw [hempty]; simpa using hnew)
      simpa using this
    have hfirst := useProgram_of_miss L links _ d hmiss
    refine ⟨by rw [hfirst], ?_⟩
    have hstored : (useProgram L links (useProgramAll L links CacheState.empty pre) d).2.mCache.valueFor
        (computeKey L d) =
        some (programFor L links (useProgramAll L links CacheState.empty pre).constructed
          (computeKey L d)) := by
      rw [useProgram_valueFor, hfirst]
    rw [hds, useProgramAll_append]
    exact useProgramAll_preserves L links post _ _ _ hstored

/-! ## Runs of the generators over other builders -/

/-- The generic fragment statement sequence commutes with every map between
builders that commutes with the three operations. -/
theorem fragmentShaderOf_hom {F G : Type} [ShaderWriter F] [ShaderWriter G] (h : G → F)
    (hw : ∀ g s, h (ShaderWriter.write g s) = ShaderWriter.write (h g) s)
    (hi : ∀ g, h (ShaderWriter.indent g) = ShaderWriter.indent (h g))
    (hd : ∀ g, h (ShaderWriter.dedent g) = ShaderWriter.dedent (h g))
    (g : G) (isExt is2D isOff : Prop) [Decidable isExt] [Decidable is2D] [Decidable isOff]
    (t a c s o p : Bool) :
    h (fragmentShaderOf g isExt is2D isOff t a c s o p) =
      fragmentShaderOf (h g) isExt is2D isOff t a c s o p := by
  simp only [fragmentShaderOf, HShiftLeft.hShiftLeft, apply_ite h, hw, hi, hd]

/-- The generic vertex statement sequence commutes with every map between
builders that commutes with the three operations. -/
theorem vertexShaderOf_hom {F G : Type} [ShaderWriter F] [ShaderWriter G] (h : G → F)
    (hw : ∀ g s, h (ShaderWriter.write g s) = ShaderWriter.write (h g) s)
    (hi : ∀ g, h (ShaderWriter.indent g) = ShaderWriter.indent (h g))
    (hd : ∀ g, h (ShaderWriter.dedent g) = ShaderWriter.dedent (h g))
    (g : G) (t s : Bool) :
    h (vertexShaderOf g t s) = vertexShaderOf (h g) t s := by
  simp only [vertexShaderOf, HShiftLeft.hShiftLeft, apply_ite h, hw, hi, hd]

theorem generateVertexShader_eq (L : Consts) (k : Key) :
    generateVertexShader L k = (vertexFormatter L k).getString := rfl

theorem generateFragmentShader_eq_formatter (L : Consts) (k : Key) :
    generateFragmentShader L k = (fragmentFormatter L k).getString := rfl

set_option maxRecDepth 1000000 in
theorem vertexLines_no_newline :
    ∀ t s : Bool, ∀ l ∈ vertexLines t s, '\n' ∉ l.data := by
  decide!

/-- The vertex shader text has exactly the lines of `vertexLines`. -/
theorem textLines_generateVertexShader (L : Consts) (k : Key) :
    textLines (generateVertexShader L k) = vertexLines (k.isTexturing L) (k.hasSBSEnabled L) := by
  have e : Formatter.new = LineBuffer.toFormatter ⟨[], 0⟩ := rfl
  rw [generateVertexShader_eq, vertexFormatter, e,
    ← vertexShaderOf_hom LineBuffer.toFormatter LineBuffer.toFormatter_write
      LineBuffer.toFormatter_indent LineBuffer.toFormatter_dedent]
  exact textLines_joinLines _ (vertexLines_no_newline _ _)

theorem LayoutBuffer.rendered_write (b : LayoutBuffer) (s : String) :
    (ShaderWriter.write b s).toFormatter = ShaderWriter.write b.toFormatter s := by
  simp [ShaderWriter.write, LayoutBuffer.toFormatter, Formatter.write, joinLines_append,
    joinLines, Formatter.appendIndent_eq, String.append_assoc, renderLine]

theorem LayoutBuffer.rendered_indent (b : LayoutBuffer) :
    (ShaderWriter.indent b).toFormatter = ShaderWriter.indent b.toFormatter := rfl

theorem LayoutBuffer.rendered_dedent (b : LayoutBuffer) :
    (ShaderWriter.dedent b).toFormatter = ShaderWriter.dedent b.toFormatter := rfl

/-- The formatter of the fragment generator is the one its recorded run
stands for. -/
theorem fragmentFormatter_eq_run (L : Consts) (k : Key) :
    fragmentFormatter L k = (fragmentRun L k).toFormatter := by
  have e : Formatter.new = LayoutBuffer.start.toFormatter := rfl
  rw [fragmentFormatter, fragmentRun, e,
    ← fragmentShaderOf_hom LayoutBuffer.toFormatter LayoutBuffer.rendered_write
      LayoutBuffer.rendered_indent LayoutBuffer.rendered_dedent]

/-- The formatter of the vertex generator is the one its recorded run stands
for. -/
theorem vertexFormatter_eq_run (L : Consts) (k : Key) :
    vertexFormatter L k = (vertexRun L k).toFormatter := by
  have e : Formatter.new = LayoutBuffer.start.toFormatter := rfl
  rw [vertexFormatter, vertexRun, e,
    ← vertexShaderOf_hom LayoutBuffer.toFormatter LayoutBuffer.rendered_write
      LayoutBuffer.rendered_indent LayoutBuffer.rendered_dedent]

/-- The recorded fragment run of a key is the recorded run of its conditions. -/
theorem fragmentRun_eq_layout (L : Consts) (k : Key) :
    fragmentRun L k =
      fragmentLayout (decide (k.getTextureTarget L = L.TEXTURE_EXT))
        (decide (k.getTextureTarget L = L.TEXTURE_2D))
        (decide (k.getTextureTarget L = L.TEXTURE_OFF))
        (k.hasPlaneAlpha L) (k.hasColorMatrix L) (k.hasSBSEnabled L) (k.isOpaque L)
        (k.isPremultiplied L) := by
  have hT : k.isTexturing L = !decide (k.getTextureTarget L = L.TEXTURE_OFF) := by
    simp [Key.isTexturing, Key.getTextureTarget]
  rw [fragmentRun, fragmentLayout, hT]
  exact fragmentShaderOf_congr _ _ _ _ _ _ _ (decide_eq_true_iff).symm
    (decide_eq_true_iff).symm (decide_eq_true_iff).symm _ _ _ _ _ _

set_option maxRecDepth 1000000 in
theorem fragmentLayout_twoPhase :
    ∀ b1 b2 b3 a c s o p : Bool, (fragmentLayout b1 b2 b3 a c s o p).TwoPhase := by
  decide!

set_option maxRecDepth 1000000 in
theorem vertexLayout_twoPhase :
    ∀ t s : Bool, (vertexShaderOf LayoutBuffer.start t s).TwoPhase := by
  decide!

/-! ## Fragment shader head, stereo sampling and colour matrix -/

set_option maxRecDepth 1000000 in
theorem fragmentLines_head :
    ∀ b1 b2 b3 a c s o p : Bool,
      ((fragmentLines b1 b2 b3 a c s o p).head? = some extensionDirective ↔ b1 = true) ∧
      (fragmentLines b1 b2 b3 a c s o p).take (if b1 = true then 2 else 1) =
        (if b1 = true then [extensionDirective, precisionDeclaration]
         else [precisionDeclaration]) ∧
      (((fragmentLines b1 b2 b3 a c s o p).filter (hasPrefix "#extension")).length =
        if b1 = true then 1 else 0) ∧
      (fragmentLines b1 b2 b3 a c s o p).count precisionDeclaration = 1 ∧
      ((fragmentLines b1 b2 b3 a c s o p).filter (hasPrefix "precision")).length = 1 := by
  decide!

/-- C13: the first line of the fragment shader is the extension directive
iff the texture mode is EXTERNAL, and then the precision declaration is the
second line; otherwise the shader has no extension directive and the
precision declaration is the first line; the precision declaration occurs
exactly once. -/
theorem generateFragmentShader_head (L : Consts) (k : Key) :
    ((textLines (generateFragmentShader L k)).head? = some extensionDirective ↔
      k.getTextureTarget L = L.TEXTURE_EXT) ∧
    (textLines (generateFragmentShader L k)).take
        (if k.getTextureTarget L = L.TEXTURE_EXT then 2 else 1) =
      (if k.getTextureTarget L = L.TEXTURE_EXT then [extensionDirective, precisionDeclaration]
       else [precisionDeclaration]) ∧
    (((textLines (generateFragmentShader L k)).filter (hasPrefix "#extension")).length =
      if k.getTextureTarget L = L.TEXTURE_EXT then 1 else 0) ∧
    (textLines (generateFragmentShader L k)).count precisionDeclaration = 1 ∧
    ((textLines (generateFragmentShader L k)).filter (hasPrefix "precision")).length = 1 := by
  obtain ⟨b1, b2, b3, h1, h2, h3⟩ := texture_flags L k
  rw [textLines_generateFragmentShader]
  simp only [h1, h2, h3, Bool.decide_eq_true]
  exact fragmentLines_head b1 _ _ _ _ _ _ _

set_option maxRecDepth 1000000 in
theorem fragmentLines_sampling :
    ∀ b1 b2 a c s o p : Bool,
      (shaderBody (fragmentLines b1 b2 false a c s o p)).take (if s = true then 8 else 1) =
        (if s = true then stereoSampling else directSampling) ∧
      (shaderBody (fragmentLines b1 b2 false a c s o p)).filter (mentions "pos = ") =
        (if s = true then
          ["    vec2 pos = vec2(-1.0);", "       pos = Distort(fragpos1.xy);",
           "       pos = Distort(fragpos2.xy);"]
         else []) ∧
      ((shaderBody (fragmentLines b1 b2 false a c s o p)).filter (mentions "texture2D")).length
        = 1 := by
  decide!

/-- C17: with texturing enabled, the fragment body starts, when stereo is ON,
with the eight lines of `stereoSampling` in this order (output to transparent
black, sample position out of range, the test on `fragpos1` with the
assignment of `Distort(fragpos1.xy)`, the test on `fragpos2` with the
assignment of `Distort(fragpos2.xy)`, the test on the position with the
texture lookup), and when stereo is OFF with the direct lookup at
`outTexCoords`.  The lines writing `pos` are the initialisation, the
`fragpos1` and the `fragpos2` assignment in this order, so the `fragpos2`
assignment is the last write, and the body has a single texture lookup. -/
theorem generateFragmentShader_sampling (L : Consts) (k : Key) (ht : k.isTexturing L = true) :
    (fragmentBody L k).take (if k.hasSBSEnabled L = true then 8 else 1) =
      (if k.hasSBSEnabled L = true then stereoSampling else directSampling) ∧
    (fragmentBody L k).filter (mentions "pos = ") =
      (if k.hasSBSEnabled L = true then
        ["    vec2 pos = vec2(-1.0);", "       pos = Distort(fragpos1.xy);",
         "       pos = Distort(fragpos2.xy);"]
       else []) ∧
    ((fragmentBody L k).filter (mentions "texture2D")).length = 1 := by
  have hoff : decide (k.getTextureTarget L = L.TEXTURE_OFF) = false := by
    simpa [Key.isTexturing, Key.getTextureTarget] using ht
  rw [fragmentBody, textLines_generateFragmentShader, hoff]
  exact fragmentLines_sampling _ _ _ _ _ _ _

/-- Witness for C17: the textured stereo layer. -/
theorem generateFragmentShader_sampling_witness :
    (computeKey sampleConsts stereoLayer).isTexturing sampleConsts = true ∧
    (fragmentBody sampleConsts (computeKey sampleConsts stereoLayer)).take 8 = stereoSampling :=
  ⟨by decide,
   (generateFragmentShader_sampling sampleConsts (computeKey sampleConsts stereoLayer)
     (by decide)).1⟩

set_option maxRecDepth 1000000 in
theorem fragmentLines_matrixBlock :
    ∀ b1 b2 b3 a c s o p : Bool,
      (consecutiveIn [linearize, applyColorMatrix, reEncode]
        (shaderBody (fragmentLines b1 b2 b3 a c s o p)) = c) ∧
      (∀ x ∈ [unPremultiply, linearize, applyColorMatrix, reEncode, rePremultiply],
        (x ∈ shaderBody (fragmentLines b1 b2 b3 a c s o p) → c = true)) ∧
      (∀ x ∈ [linearize, applyColorMatrix, reEncode],
        (shaderBody (fragmentLines b1 b2 b3 a c s o p)).count x = if c = true then 1 else 0) ∧
      (∀ y ∈ [alphaForcing, "    gl_FragColor *= alphaPlane;",
              "    gl_FragColor.a *= alphaPlane;"],
        y ∈ shaderBody (fragmentLines b1 b2 b3 a c s o p) →
        linearize ∈ shaderBody (fragmentLines b1 b2 b3 a c s o p) →
        isBefore y linearize (shaderBody (fragmentLines b1 b2 b3 a c s o p)) = true ∧
        isBefore linearize y (shaderBody (fragmentLines b1 b2 b3 a c s o p)) = false) := by
  decide!

/-- C18: the fragment body contains the linearization, the multiplication by
`colorMatrix` and the re-encoding as three consecutive lines in this order
iff the colour matrix is ON (each then exactly once), after every
alpha-forcing and alpha-scale statement present; with the colour matrix OFF
it contains none of the three and neither the un-premultiply nor the
re-premultiply statement. -/
theorem generateFragmentShader_matrixBlock (L : Consts) (k : Key) :
    (consecutiveIn [linearize, applyColorMatrix, reEncode] (fragmentBody L k) =
      k.hasColorMatrix L) ∧
    (∀ x ∈ [unPremultiply, linearize, applyColorMatrix, reEncode, rePremultiply],
      (x ∈ fragmentBody L k → k.hasColorMatrix L = true)) ∧
    (∀ x ∈ [linearize, applyColorMatrix, reEncode],
      (fragmentBody L k).count x = if k.hasColorMatrix L = true then 1 else 0) ∧
    (∀ y ∈ [alphaForcing, "    gl_FragColor *= alphaPlane;", "    gl_FragColor.a *= alphaPlane;"],
      y ∈ fragmentBody L k → linearize ∈ fragmentBody L k →
      isBefore y linearize (fragmentBody L k) = true ∧
      isBefore linearize y (fragmentBody L k) = false) := by
  rw [fragmentBody, textLines_generateFragmentShader]
  exact fragmentLines_matrixBlock _ _ _ _ _ _ _ _

/-! ## Layout, formatter contract, determinism, distortion flag, varyings -/

theorem LayoutBuffer.toLineBuffer_write (b : LayoutBuffer) (s : String) :
    (ShaderWriter.write b s).toLineBuffer = ShaderWriter.write b.toLineBuffer s := by
  simp [ShaderWriter.write, LayoutBuffer.toLineBuffer, renderLine]

theorem LayoutBuffer.toLineBuffer_indent (b : LayoutBuffer) :
    (ShaderWriter.indent b).toLineBuffer = ShaderWriter.indent b.toLineBuffer := rfl

theorem LayoutBuffer.toLineBuffer_dedent (b : LayoutBuffer) :
    (ShaderWriter.dedent b).toLineBuffer = ShaderWriter.dedent b.toLineBuffer := rfl

/-- The text lines of the vertex shader are the rendered records of its run. -/
theorem textLines_vertexRun (L : Consts) (k : Key) :
    textLines (generateVertexShader L k) = (vertexRun L k).written.map renderLine := by
  have e : (⟨[], 0⟩ : LineBuffer) = LayoutBuffer.start.toLineBuffer := rfl
  rw [textLines_generateVertexShader, vertexLines, e,
    ← vertexShaderOf_hom LayoutBuffer.toLineBuffer LayoutBuffer.toLineBuffer_write
      LayoutBuffer.toLineBuffer_indent LayoutBuffer.toLineBuffer_dedent]
  rfl

/-- The text lines of the fragment shader are the rendered records of its
run. -/
theorem textLines_fragmentRun (L : Consts) (k : Key) :
    textLines (generateFragmentShader L k) = (fragmentRun L k).written.map renderLine := by
  have e : (⟨[], 0⟩ : LineBuffer) = LayoutBuffer.start.toLineBuffer := rfl
  rw [textLines_generateFragmentShader, fragmentRun_eq_layout, fragmentLines, fragmentLayout, e,
    ← fragmentShaderOf_hom LayoutBuffer.toLineBuffer LayoutBuffer.toLineBuffer_write
      LayoutBuffer.toLineBuffer_indent LayoutBuffer.toLineBuffer_dedent]
  rfl

set_option maxRecDepth 1000000 in
theorem fragmentLines_layout :
    ∀ b1 b2 b3 a c s o p : Bool,
      (fragmentLines b1 b2 b3 a c s o p).count mainOpening = 1 ∧
      (fragmentLines b1 b2 b3 a c s o p).getLast? = some "\x7d" ∧
      (∀ l ∈ shaderDecls (fragmentLines b1 b2 b3 a c s o p),
        isDeclaration l = true → hasPrefix " " l = false) ∧
      (∀ l ∈ shaderBody (fragmentLines b1 b2 b3 a c s o p), isDeclaration l = false) ∧
      (∀ l ∈ (shaderBody (fragmentLines b1 b2 b3 a c s o p)).dropLast,
        hasPrefix "    " l = true) := by
  decide!

set_option maxRecDepth 1000000 in
theorem vertexLines_layout :
    ∀ t s : Bool,
      (vertexLines t s).count mainOpening = 1 ∧
      (vertexLines t s).getLast? = some "\x7d" ∧
      (∀ l ∈ shaderDecls (vertexLines t s), isDeclaration l = true → hasPrefix " " l = false) ∧
      (∀ l ∈ shaderBody (vertexLines t s), isDeclaration l = false) ∧
      (∀ l ∈ (shaderBody (vertexLines t s)).dropLast, hasPrefix "    " l = true) := by
  decide!

/-- C14 (as amended): for every key and both generators the output has the
two-phase layout.  The text is what the recorded run renders; exactly one line
opens `main`; the lines before it, among them every attribute, varying,
uniform, precision and extension declaration, are written at level 0; every
line after it except the last is written at level exactly 1, that is, the
builder puts exactly four spaces before the line the generator passes (which
may itself begin with spaces), and none of them is a declaration; the last
line is the closing brace at level 0; the level of the builder is never
negative and is 0 when the text is returned. -/
theorem generators_two_phase_layout (L : Consts) (k : Key) :
    (generateVertexShader L k = (vertexFormatter L k).getString ∧
     vertexFormatter L k = (vertexRun L k).toFormatter ∧
     textLines (generateVertexShader L k) = (vertexRun L k).written.map renderLine ∧
     (vertexRun L k).TwoPhase ∧
     (textLines (generateVertexShader L k)).count mainOpening = 1 ∧
     (textLines (generateVertexShader L k)).getLast? = some "\x7d" ∧
     (∀ l ∈ shaderDecls (textLines (generateVertexShader L k)),
       isDeclaration l = true → hasPrefix " " l = false) ∧
     (∀ l ∈ shaderBody (textLines (generateVertexShader L k)), isDeclaration l = false) ∧
     (∀ l ∈ (shaderBody (textLines (generateVertexShader L k))).dropLast,
       hasPrefix "    " l = true)) ∧
    (generateFragmentShader L k = (fragmentFormatter L k).getString ∧
     fragmentFormatter L k = (fragmentRun L k).toFormatter ∧
     textLines (generateFragmentShader L k) = (fragmentRun L k).written.map renderLine ∧
     (fragmentRun L k).TwoPhase ∧
     (textLines (generateFragmentShader L k)).count mainOpening = 1 ∧
     (textLines (generateFragmentShader L k)).getLast? = some "\x7d" ∧
     (∀ l ∈ shaderDecls (textLines (generateFragmentShader L k)),
       isDeclaration l = true → hasPrefix " " l = false) ∧
     (∀ l ∈ shaderBody (textLines (generateFragmentShader L k)), isDeclaration l = false) ∧
     (∀ l ∈ (shaderBody (textLines (generateFragmentShader L k))).dropLast,
       hasPrefix "    " l = true)) ∧
    (∀ s : String, renderLine (0, s) = s ∧ renderLine (1, s) = "    " ++ s) := by
  refine ⟨⟨rfl, vertexFormatter_eq_run L k, textLines_vertexRun L k,
      vertexLayout_twoPhase _ _, ?_⟩,
    ⟨rfl, fragmentFormatter_eq_run L k, textLines_fragmentRun L k, ?_, ?_⟩, ?_⟩
  · rw [textLines_generateVertexShader]
    exact vertexLines_layout _ _
  · rw [fragmentRun_eq_layout]
    exact fragmentLayout_twoPhase _ _ _ _ _ _ _ _
  · rw [textLines_generateFragmentShader]
    exact fragmentLines_layout _ _ _ _ _ _ _ _
  · intro s
    simp [renderLine, indentText]

set_option maxRecDepth 1000000 in
/-- C14 (as stated) fails: for a textured stereo key the fragment shader has,
after the opening of `main` and before the last line, the line
`pos = Distort(fragpos1.xy);` behind seven spaces: it starts with more than
four. -/
theorem generateFragmentShader_stereo_line_indent :
    "       pos = Distort(fragpos1.xy);" ∈
      (shaderBody (textLines (generateFragmentShader sampleConsts
        (computeKey sampleConsts stereoLayer)))).dropLast ∧
    hasPrefix "     " "       pos = Distort(fragpos1.xy);" = true := by
  rw [textLines_generateFragmentShader]
  decide!

theorem indentText_data (n : Nat) : (indentText n).data = List.replicate (4 * n) ' ' := by
  induction n with
  | zero => rfl
  | succ n ih =>
    simp only [indentText, String.data_append, ih]
    have e : 4 * (n + 1) = 4 * n + 1 + 1 + 1 + 1 := by omega
    rw [e]
    simp [List.replicate_succ]

theorem Formatter.write_foldl (ss : List String) (f : Formatter) :
    ss.foldl Formatter.write f =
      { mString := f.mString ++ joinLines (ss.map (fun x => indentText f.mIndent.toNat ++ x)),
        mIndent := f.mIndent } := by
  induction ss generalizing f with
  | nil => simp [joinLines]
  | cons x xs ih =>
    rw [List.foldl_cons, ih]
    simp [Formatter.write, joinLines, Formatter.appendIndent_eq, String.append_assoc]

/-- Inside the `int` range nothing wraps. -/
theorem wrapInt_of_range (x : Int) (h1 : -2147483648 ≤ x) (h2 : x ≤ 2147483647) :
    wrapInt x = x := by
  unfold wrapInt
  omega

/-- C15 (as amended): for a formatter with text `t` at a level `n` with
`0 ≤ n ≤ 2147483647` (the level is a 32-bit `int`) and a line `s`, appending
`s` gives `t`, then `n` copies of four spaces, then `s`, then a newline, at
the same level; `indent` changes only the level, to `n + 1`, provided
`n < 2147483647`; `dedent` changes only the level, to `n - 1`; `getString` is
the accumulated text; hence appending the lines `s1 .. sk` gives `t` followed
by the prefixed and terminated lines. -/
theorem Formatter_contract (f : Formatter) (n : Nat) (s : String) (hn : f.mIndent = (n : Int))
    (hint : n ≤ 2147483647) :
    Formatter.write f s =
      { mString := f.mString ++ indentText n ++ s ++ "\n", mIndent := (n : Int) } ∧
    (indentText n).data = List.replicate (4 * n) ' ' ∧
    (n < 2147483647 → indent f = { mString := f.mString, mIndent := (n : Int) + 1 }) ∧
    dedent f = { mString := f.mString, mIndent := (n : Int) - 1 } ∧
    f.getString = f.mString ∧
    (∀ ss : List String,
      ss.foldl Formatter.write f =
        { mString := f.mString ++ joinLines (ss.map (fun x => indentText n ++ x)),
          mIndent := (n : Int) }) := by
  refine ⟨?_, indentText_data n, ?_, ?_, rfl, ?_⟩
  · simp [Formatter.write, hn, Formatter.appendIndent_eq]
  · intro hlt
    have hw : wrapInt ((n : Int) + 1) = (n : Int) + 1 := wrapInt_of_range _ (by omega) (by omega)
    simp [indent, hn, hw]
  · have hw : wrapInt ((n : Int) - 1) = (n : Int) - 1 := wrapInt_of_range _ (by omega) (by omega)
    simp [dedent, hn, hw]
  · intro ss
    rw [Formatter.write_foldl, hn]
    simp

/-- C15 (as stated) fails: at level 2147483647, the largest `int`, `indent`
does not give level `n + 1`; the level wraps to -2147483648. -/
theorem indent_at_int_max_wraps :
    formatterAtIntMax.mIndent = ((2147483647 : Nat) : Int) ∧
    indent formatterAtIntMax ≠
      { mString := formatterAtIntMax.mString, mIndent := ((2147483647 : Nat) : Int) + 1 } ∧
    (indent formatterAtIntMax).mIndent = -2147483648 := by
  decide

/-- Witness for C15 (as amended): one line appended at level 1, and `indent`
from level 1. -/
theorem Formatter_contract_witness :
    (indent Formatter.new).mIndent = ((1 : Nat) : Int) ∧
    Formatter.write (indent Formatter.new) "gl_Position = projection * position;" =
      { mString := "    gl_Position = projection * position;\n", mIndent := 1 } ∧
    indent (indent Formatter.new) = { mString := "", mIndent := 2 } :=
  ⟨by decide,
   (Formatter_contract (indent Formatter.new) 1 "gl_Position = projection * position;"
     (by decide) (by decide)).1.trans (by decide),
   ((Formatter_contract (indent Formatter.new) 1 "gl_Position = projection * position;"
     (by decide) (by decide)).2.2.1 (by decide)).trans (by decide)⟩

/-- C16: the generated texts depend on nothing but the key.  Generating for
the same key in two arbitrary cache states with two arbitrary drivers gives
the same vertex text and the same fragment text; two uncached descriptions
with equal keys get programs with byte-identical sources, which are the texts
of the two generators at that key. -/
theorem generated_text_depends_only_on_key (L : Consts) (links1 links2 : String → String → Bool)
    (st1 st2 : CacheState) (d1 d2 : Description)
    (hk : computeKey L d1 = computeKey L d2)
    (h1 : st1.mCache.valueFor (computeKey L d1) = none)
    (h2 : st2.mCache.valueFor (computeKey L d2) = none) :
    (generateProgram L links1 st1 (computeKey L d1)).1.mVertexSource =
      (generateProgram L links2 st2 (computeKey L d1)).1.mVertexSource ∧
    (generateProgram L links1 st1 (computeKey L d1)).1.mFragmentSource =
      (generateProgram L links2 st2 (computeKey L d1)).1.mFragmentSource ∧
    (useProgram L links1 st1 d1).1.mVertexSource = (useProgram L links2 st2 d2).1.mVertexSource ∧
    (useProgram L links1 st1 d1).1.mFragmentSource =
      (useProgram L links2 st2 d2).1.mFragmentSource ∧
    (useProgram L links1 st1 d1).1.mVertexSource = generateVertexShader L (computeKey L d1) ∧
    (useProgram L links1 st1 d1).1.mFragmentSource =
      generateFragmentShader L (computeKey L d1) := by
  rw [useProgram_of_miss L links1 st1 d1 h1, useProgram_of_miss L links2 st2 d2 h2, ← hk]
  exact ⟨rfl, rfl, rfl, rfl, rfl, rfl⟩

/-- Witness for C16: the two sample layers, used in different cache states
with different drivers, get the same vertex text. -/
theorem generated_text_depends_only_on_key_witness :
    computeKey sampleConsts layerHalfAlpha = computeKey sampleConsts layerQuarterAlpha ∧
    (useProgram sampleConsts (fun _ _ => true) CacheState.empty layerHalfAlpha).1.mVertexSource =
      (useProgram sampleConsts (fun _ _ => false)
        (useProgram sampleConsts (fun _ _ => true) CacheState.empty plainDescription).2
        layerQuarterAlpha).1.mVertexSource :=
  ⟨by decide,
   (generated_text_depends_only_on_key sampleConsts (fun _ _ => true) (fun _ _ => false)
     CacheState.empty
     (useProgram sampleConsts (fun _ _ => true) CacheState.empty plainDescription).2
     layerHalfAlpha layerQuarterAlpha (by decide) (by decide) (by decide)).2.2.1⟩

/-- C19: two keys that agree on every field but the distortion field get the
same vertex text and the same fragment text; and for two descriptions that
differ only in the distortion switch `computeKey` records the difference in
the key while both generated texts stay the same. -/
theorem shaders_ignore_distortion (L : Consts) (hL : L.WellFormed) (k1 k2 : Key)
    (hTexture : k1.mKey &&& L.TEXTURE_MASK = k2.mKey &&& L.TEXTURE_MASK)
    (hPlaneAlpha : k1.mKey &&& L.PLANE_ALPHA_MASK = k2.mKey &&& L.PLANE_ALPHA_MASK)
    (hBlend : k1.mKey &&& L.BLEND_MASK = k2.mKey &&& L.BLEND_MASK)
    (hOpacity : k1.mKey &&& L.OPACITY_MASK = k2.mKey &&& L.OPACITY_MASK)
    (hColorMatrix : k1.mKey &&& L.COLOR_MATRIX_MASK = k2.mKey &&& L.COLOR_MATRIX_MASK)
    (hStereo : k1.mKey &&& L.SBS_MASK = k2.mKey &&& L.SBS_MASK) :
    (generateVertexShader L k1 = generateVertexShader L k2 ∧
     generateFragmentShader L k1 = generateFragmentShader L k2) ∧
    (∀ d1 d2 : Description, differOnlyIn Field.distortionEnabled d1 d2 →
      (computeKey L d1).hasDistEnabled L ≠ (computeKey L d2).hasDistEnabled L ∧
      generateVertexShader L (computeKey L d1) = generateVertexShader L (computeKey L d2) ∧
      generateFragmentShader L (computeKey L d1) =
        generateFragmentShader L (computeKey L d2)) := by
  have key : ∀ a b : Key,
      a.mKey &&& L.TEXTURE_MASK = b.mKey &&& L.TEXTURE_MASK →
      a.mKey &&& L.PLANE_ALPHA_MASK = b.mKey &&& L.PLANE_ALPHA_MASK →
      a.mKey &&& L.BLEND_MASK = b.mKey &&& L.BLEND_MASK →
      a.mKey &&& L.OPACITY_MASK = b.mKey &&& L.OPACITY_MASK →
      a.mKey &&& L.COLOR_MATRIX_MASK = b.mKey &&& L.COLOR_MATRIX_MASK →
      a.mKey &&& L.SBS_MASK = b.mKey &&& L.SBS_MASK →
      generateVertexShader L a = generateVertexShader L b ∧
      generateFragmentShader L a = generateFragmentShader L b := by
    intro a b e1 e2 e3 e4 e5 e6
    constructor
    · simp only [generateVertexShader_eq, vertexFormatter, Key.isTexturing, Key.hasSBSEnabled,
        e1, e6]
    · simp only [generateFragmentShader_eq_formatter, fragmentFormatter, Key.getTextureTarget,
        Key.isTexturing, Key.hasPlaneAlpha, Key.hasColorMatrix, Key.hasSBSEnabled, Key.isOpaque,
        Key.isPremultiplied, e1, e2, e3, e4, e5, e6]
  refine ⟨key k1 k2 hTexture hPlaneAlpha hBlend hOpacity hColorMatrix hStereo, ?_⟩
  intro d1 d2 hd
  simp only [differOnlyIn, Field.all, List.mem_cons, List.mem_singleton, forall_eq_or_imp,
    forall_eq, Field.differs, List.not_mem_nil, IsEmpty.forall_iff, and_true,
    bne_iff_ne, ne_eq, reduceCtorEq, iff_false, iff_true, not_not] at hd
  obtain ⟨d1e, d2e, d3e, d4e, d5e, d6e, d7e, d8e⟩ := hd
  have facts := hL.facts
  refine ⟨?_, key _ _ ?_ ?_ ?_ ?_ ?_ ?_⟩
  · simp only [Key.hasDistEnabled, computeKey_dist L hL]
    have hne : ¬ L.DIST_OFF = L.DIST_ON := fun h => facts.2.1.2.2.2.2.2.2.2 h.symm
    cases h1 : d1.mDistEnabled <;> cases h2 : d2.mDistEnabled <;>
      simp_all
  · rw [computeKey_texture L hL, computeKey_texture L hL, d1e, d2e]
  · rw [computeKey_planeAlpha L hL, computeKey_planeAlpha L hL, d3e]
  · rw [computeKey_blend L hL, computeKey_blend L hL, d4e]
  · rw [computeKey_opacity L hL, computeKey_opacity L hL, d5e]
  · rw [computeKey_colorMatrix L hL, computeKey_colorMatrix L hL, d6e]
  · rw [computeKey_sbs L hL, computeKey_sbs L hL, d7e]

/-- Witness for C19: the stereo layer with and without distortion. -/
theorem shaders_ignore_distortion_witness :
    sampleConsts.WellFormed ∧
    computeKey sampleConsts stereoLayer ≠
      computeKey sampleConsts { stereoLayer with mDistEnabled := true } ∧
    generateFragmentShader sampleConsts (computeKey sampleConsts stereoLayer) =
      generateFragmentShader sampleConsts
        (computeKey sampleConsts { stereoLayer with mDistEnabled := true }) :=
  ⟨by decide, by decide,
   (shaders_ignore_distortion sampleConsts (by decide) (computeKey sampleConsts stereoLayer)
     (computeKey sampleConsts { stereoLayer with mDistEnabled := true })
     (by decide) (by decide) (by decide) (by decide) (by decide) (by decide)).1.2⟩

set_option maxRecDepth 1000000 in
theorem lines_varyings :
    ∀ b1 b2 b3 a c s o p : Bool,
      (b1 && b2) = false → (b1 && b3) = false → (b2 && b3) = false →
      (b1 || b2 || b3) = true →
      (vertexLines (!b3) s).filter (hasPrefix "varying ") =
        (fragmentLines b1 b2 b3 a c s o p).filter (hasPrefix "varying ") ∧
      (vertexLines (!b3) s).filter (hasPrefix "varying ") =
        (if (!b3) = true then ["varying vec2 outTexCoords;"] else []) ++
        (if s = true then ["varying vec3 fragpos1;", "varying vec3 fragpos2;"] else []) := by
  decide!

/-- C20: for a key whose texture mode is OFF, EXTERNAL or TWO_D, the vertex
and the fragment shader have the same varying declaration lines (name and
type): `varying vec2 outTexCoords;` iff the texture mode is not OFF, and
`varying vec3 fragpos1;`, `varying vec3 fragpos2;` iff stereo is ON. -/
theorem generators_same_varyings (L : Consts) (hL : L.WellFormed) (k : Key)
    (hmode : k.getTextureTarget L = L.TEXTURE_OFF ∨ k.getTextureTarget L = L.TEXTURE_EXT ∨
      k.getTextureTarget L = L.TEXTURE_2D) :
    (textLines (generateVertexShader L k)).filter (hasPrefix "varying ") =
      (textLines (generateFragmentShader L k)).filter (hasPrefix "varying ") ∧
    (textLines (generateVertexShader L k)).filter (hasPrefix "varying ") =
      (if k.isTexturing L = true then ["varying vec2 outTexCoords;"] else []) ++
      (if k.hasSBSEnabled L = true then ["varying vec3 fragpos1;", "varying vec3 fragpos2;"]
       else []) := by
  obtain ⟨b1, b2, b3, h1, h2, h3⟩ := texture_flags L k
  obtain ⟨x1, x2, x3⟩ := texture_flags_exclusive L hL k b1 b2 b3 h1 h2 h3
  have hT : k.isTexturing L = !b3 := by
    have : k.isTexturing L = !decide (k.getTextureTarget L = L.TEXTURE_OFF) := by
      simp [Key.isTexturing, Key.getTextureTarget]
    rw [this]
    simp only [h3, Bool.decide_eq_true]
  have hany : (b1 || b2 || b3) = true := by
    rw [h1, h2, h3] at hmode
    rcases hmode with h | h | h <;> simp [h]
  rw [textLines_generateVertexShader, textLines_generateFragmentShader, hT]
  simp only [h1, h2, h3, Bool.decide_eq_true]
  exact lines_varyings b1 b2 b3 _ _ _ _ _ x1 x2 x3 hany

/-- Witness for C20: the textured stereo layer. -/
theorem generators_same_varyings_witness :
    sampleConsts.WellFormed ∧
    (computeKey sampleConsts stereoLayer).getTextureTarget sampleConsts =
      sampleConsts.TEXTURE_2D ∧
    (textLines (generateVertexShader sampleConsts (computeKey sampleConsts stereoLayer))).filter
        (hasPrefix "varying ") =
      (textLines (generateFragmentShader sampleConsts
        (computeKey sampleConsts stereoLayer))).filter (hasPrefix "varying ") :=
  ⟨by decide, by decide,
   (generators_same_varyings sampleConsts (by decide) (computeKey sampleConsts stereoLayer)
     (Or.inr (Or.inr (by decide)))).1⟩

end ProgramCache
